import Mathlib

/-! RecovAI admin ICU dashboard: a shallow embedding.

The definitions below embed the pure parts of the admin ICU dashboard
(`frontend/src/components/Admin/ICUDashboard.jsx` and
`frontend/src/components/Admin/ICUDashboard_new.jsx`) and of the patient and doctor
components `SymptomTracker.jsx`, `RecoveryPlan.jsx`, `NearbyRehabCenters.jsx`,
`RiskAssessmentReport.jsx` and `BloodReportUploader.jsx`.

Conventions of the embedding:

* a JavaScript number that reaches a comparison is a rational (`ℚ`); every finite
  double is one, and `>` and the sign of a difference of two finite doubles agree with
  the rational ones;
* a division or multiplication of JavaScript numbers is rounded to the nearest double
  (`roundDouble`);
* a property that may be missing from a JSON object is an `Option`; `none` stands for
  `undefined`;
* React state is passed explicitly; side effects of an event handler (alerts, audit log
  writes, refreshes) are returned as a list of `Effect`s and interpreted on the state.
-/

namespace RecovAI

/-! ## JavaScript helpers -/

/-- The JavaScript expression `x > c` for a possibly missing number `x`: a missing value
is `undefined`, which converts to `NaN`, and every comparison with `NaN` is `false`. -/
def jsGt (x : Option ℚ) (c : ℚ) : Bool :=
  match x with
  | none => false
  | some v => decide (v > c)

/-- The JavaScript expression `x || 0` for a possibly missing number `x`: `undefined`
and `0` are falsy and give `0`, any other number is kept. -/
def jsOrZero (x : Option ℚ) : ℚ :=
  match x with
  | none => 0
  | some v => if v = 0 then 0 else v

/-- The JavaScript expression `s || d` for a possibly missing string `s`: `undefined` and
the empty string are falsy and give `d`. -/
def jsOrString (s : Option String) (d : String) : String :=
  match s with
  | none => d
  | some v => if v = "" then d else v

/-- Insertion of `a` into a list, before the first element `b` with `cmp a b ≤ 0`. -/
def orderedInsert {α : Type} (cmp : α → α → ℚ) (a : α) : List α → List α
  | [] => [a]
  | b :: l => if cmp a b ≤ 0 then a :: b :: l else b :: orderedInsert cmp a l

/-- The method `Array.prototype.sort(cmp)` on a copy of the array, for a comparator `cmp`
that returns a number. ECMAScript requires the sort to be stable, and for a consistent
comparator the outcome of a stable sort is unique; it is computed here by insertion
from the right, which keeps an element before the later elements it ties with. -/
def jsSort {α : Type} (cmp : α → α → ℚ) : List α → List α
  | [] => []
  | a :: l => orderedInsert cmp a (jsSort cmp l)

/-! ## Data model -/

/-- A waitlist entry as the dashboard reads it. -/
structure Patient where
  patient_id : Nat
  patient_name : String
  wait_hours : ℚ
  priority_score : ℚ
  icu_probability : ℚ
  risk_level : String
  deriving DecidableEq

/-- A day of the forecast as the dashboard reads it. -/
structure ForecastDay where
  date : String
  predicted_demand : Int
  available_capacity : Int
  expected_discharges : Int
  deriving DecidableEq

/-- An entry of the audit log kept by `ICUDashboard_new.jsx`. -/
structure AuditLogEntry where
  timestamp : String
  action : String
  admin : String
  deriving DecidableEq

/-- The logged-in administrator (`admin` state); `full_name` may be missing. -/
structure Admin where
  full_name : Option String
  role : Option String
  deriving DecidableEq

/-! ## `ICUDashboard.jsx` -/

namespace ICUDashboard

/-- The `status` object of `ICUDashboard.jsx`. -/
structure Status where
  total_beds : Option ℚ
  available_beds : Option ℚ
  occupied_beds : Option ℚ
  utilization_rate : Option ℚ
  deriving DecidableEq

/-- Line 131: `const utilizationRate = status.utilization_rate || 0`. -/
def utilizationRate (status : Status) : ℚ :=
  jsOrZero status.utilization_rate

/-- Line 132: `const isHighCapacity = utilizationRate > 80`; the capacity alert banner is
rendered as `isHighCapacity && (...)`. -/
def isHighCapacity (status : Status) : Bool :=
  decide (utilizationRate status > 80)

/-- Line 314: the comparator `(a, b) => b.priority_score - a.priority_score`. -/
def WaitlistTab.compare (a b : Patient) : ℚ :=
  b.priority_score - a.priority_score

/-- Line 314: `const sortedWaitlist = [...waitlist].sort(compare)`, the list that
`WaitlistTab` renders, first element on top. -/
def WaitlistTab.sortedWaitlist (waitlist : List Patient) : List Patient :=
  jsSort WaitlistTab.compare waitlist

/-- Line 374 (`ForecastTab`): `const shortage = day.predicted_demand - day.available_capacity`. -/
def ForecastTab.shortage (day : ForecastDay) : Int :=
  day.predicted_demand - day.available_capacity

/-- Line 375 (`ForecastTab`): `const isShortage = shortage > 0`. -/
def ForecastTab.isShortage (day : ForecastDay) : Bool :=
  decide (ForecastTab.shortage day > 0)

/-- Lines 430-435 (`ForecastTab`): the shortage badge `isShortage && (... -{shortage} ...)`;
the amount it shows, or `none` when the badge is not rendered. -/
def ForecastTab.shortageBadge (day : ForecastDay) : Option Int :=
  if ForecastTab.isShortage day then some (ForecastTab.shortage day) else none

/-- Line 286 (`OverviewTab`): `const shortage = day.predicted_demand - day.available_capacity`. -/
def OverviewTab.shortage (day : ForecastDay) : Int :=
  day.predicted_demand - day.available_capacity

/-- Line 287 (`OverviewTab`): `const isShortage = shortage > 0`. -/
def OverviewTab.isShortage (day : ForecastDay) : Bool :=
  decide (OverviewTab.shortage day > 0)

/-- Lines 300-302 (`OverviewTab`): `isShortage && (... Short by {shortage} ...)`; the
amount shown, or `none` when the line is not rendered. -/
def OverviewTab.shortageBadge (day : ForecastDay) : Option Int :=
  if OverviewTab.isShortage day then some (OverviewTab.shortage day) else none

end ICUDashboard

/-! ## `ICUDashboard_new.jsx` -/

namespace ICUDashboardNew

/-- The `status.capacity` object of `ICUDashboard_new.jsx`. -/
structure Capacity where
  total_beds : Option ℚ
  available : Option ℚ
  occupied : Option ℚ
  utilization_rate : Option ℚ
  deriving DecidableEq

/-- Line 171: `const capacity = status.capacity || {}`; a missing `capacity` is the empty
object, all of whose properties are `undefined`. -/
def capacityOf (capacity : Option Capacity) : Capacity :=
  match capacity with
  | none => { total_beds := none, available := none, occupied := none, utilization_rate := none }
  | some c => c

/-- Line 172: `const isCapacityTight = capacity.utilization_rate > 80`; the header's
capacity alert is rendered as `isCapacityTight && (...)`. -/
def isCapacityTight (capacity : Capacity) : Bool :=
  jsGt capacity.utilization_rate 80

/-- Lines 277-278: the status text under the utilization figure,
`capacity.utilization_rate > 90 ? 'CRITICAL' : capacity.utilization_rate > 80 ? 'HIGH' : 'NORMAL'`. -/
def utilizationLabel (capacity : Capacity) : String :=
  if jsGt capacity.utilization_rate 90 then "CRITICAL"
  else if jsGt capacity.utilization_rate 80 then "HIGH"
  else "NORMAL"

/-- Lines 147-154: the state update of `addAuditLog(action)`,
`prev => [{ timestamp, action, admin: admin?.full_name || 'Admin' }, ...prev.slice(0, 49)]`.
The clock reading `new Date().toLocaleString()` is the argument `timestamp`. -/
def addAuditLog (admin : Option Admin) (timestamp action : String)
    (prev : List AuditLogEntry) : List AuditLogEntry :=
  { timestamp := timestamp, action := action,
    admin := jsOrString (admin.bind fun a => a.full_name) "Admin" } :: prev.take 49

/-- One call of `addAuditLog`: the administrator and clock reading at the time of the
call, and the action text passed. -/
structure AuditCall where
  admin : Option Admin
  timestamp : String
  action : String
  deriving DecidableEq

/-- The entry that a call of `addAuditLog` puts at the head of the log. -/
def AuditCall.entry (c : AuditCall) : AuditLogEntry :=
  { timestamp := c.timestamp, action := c.action,
    admin := jsOrString (c.admin.bind fun a => a.full_name) "Admin" }

/-- The audit log after a sequence of `addAuditLog` calls, first call first. -/
def addAuditLogs (calls : List AuditCall) (log : List AuditLogEntry) : List AuditLogEntry :=
  calls.foldl (fun prev c => addAuditLog c.admin c.timestamp c.action prev) log

/-- The `bed_info` object of a successful allocation response. -/
structure BedInfo where
  room_number : Option String
  deriving DecidableEq

/-- What `allocateBed` reads of a decoded response body. -/
structure ResponseData where
  error : Option String
  bed_info : Option BedInfo
  deriving DecidableEq

/-- The outcome of `await response.json()`: the promise rejects (`unreadable`), or the
body decodes to `null`, on which every property access throws a `TypeError`, or to a
value whose properties can be read. -/
inductive Body where
  | unreadable
  | null
  | value (data : ResponseData)
  deriving DecidableEq

/-- The outcome of `await fetch(...)`: the promise rejects (network failure), or a response
arrives with its `ok` flag and its body. -/
inductive FetchOutcome where
  | rejected
  | response (ok : Bool) (body : Body)
  deriving DecidableEq

/-- The request went through without throwing and the response was a success: `fetch`
resolved, `response.ok` is true, and the body was read as a value. Every other outcome is a
rejection by the server (`ok` false) or ends in the `catch` block. -/
def FetchOutcome.succeeded : FetchOutcome → Bool
  | FetchOutcome.response true (Body.value _) => true
  | _ => false

/-- The JSON body `allocateBed` posts to `/api/admin/allocate-bed`. -/
structure AllocateRequest where
  patient_id : Nat
  bed_id : Nat
  override : Bool
  deriving DecidableEq

/-- The side effects an event handler of the dashboard performs. -/
inductive Effect where
  | addAuditLog (action : String)
  | fetchICUData
  | alert (message : String)
  | consoleError (message : String)
  deriving DecidableEq

/-- A template literal hole `${x}` for a possibly missing string. -/
def jsTemplate (x : Option String) : String :=
  match x with
  | none => "undefined"
  | some v => v

/-- The `catch` block of `allocateBed` (lines 120-123). -/
def allocateBedCatch : List Effect :=
  [Effect.consoleError "Failed to allocate bed:", Effect.alert "Failed to allocate bed"]

/-- Lines 98-124: `allocateBed(patientId, bedId, isOverride)`, as the list of effects it
performs in order; `fetch` is the server seen from the browser. -/
def allocateBed (fetch : AllocateRequest → FetchOutcome) (patientId bedId : Nat)
    (isOverride : Bool) : List Effect :=
  match fetch { patient_id := patientId, bed_id := bedId, override := isOverride } with
  | FetchOutcome.rejected => allocateBedCatch
  | FetchOutcome.response true body =>
    match body with
    | Body.unreadable => allocateBedCatch
    | Body.null => allocateBedCatch
    | Body.value result =>
      [Effect.addAuditLog ("Bed allocated to patient " ++ toString patientId ++ " - Room " ++
          jsTemplate (result.bed_info.bind fun b => b.room_number)),
        Effect.fetchICUData,
        Effect.alert "Bed allocated successfully!"]
  | FetchOutcome.response false body =>
    match body with
    | Body.unreadable => allocateBedCatch
    | Body.null => allocateBedCatch
    | Body.value data => [Effect.alert (jsOrString data.error "Failed to allocate bed")]

/-- The part of the dashboard's state and of the screen that the effects act on. -/
structure Dashboard where
  admin : Option Admin
  auditLog : List AuditLogEntry
  alerts : List String
  refreshes : Nat
  deriving DecidableEq

/-- One effect performed at clock reading `now`: an audit log write goes through
`addAuditLog`, an alert is added to the messages shown (oldest first), a refresh is
counted, console output leaves the dashboard as it is. -/
def Effect.perform (now : String) (σ : Dashboard) : Effect → Dashboard
  | Effect.addAuditLog action => { σ with auditLog := ICUDashboardNew.addAuditLog σ.admin now action σ.auditLog }
  | Effect.fetchICUData => { σ with refreshes := σ.refreshes + 1 }
  | Effect.alert message => { σ with alerts := σ.alerts ++ [message] }
  | Effect.consoleError _ => σ

/-- The dashboard after a list of effects performed in order. -/
def perform (now : String) (σ : Dashboard) (effects : List Effect) : Dashboard :=
  effects.foldl (Effect.perform now) σ

/-- The messages shown by `alert` among a list of effects, in order. -/
def alertsOf (effects : List Effect) : List String :=
  effects.filterMap fun e =>
    match e with
    | Effect.alert message => some message
    | _ => none

/-- The actions written to the audit log among a list of effects, in order. -/
def auditWritesOf (effects : List Effect) : List String :=
  effects.filterMap fun e =>
    match e with
    | Effect.addAuditLog action => some action
    | _ => none

end ICUDashboardNew

/-- Modelled from the spec: the server-side `CapacityStatus` rule
`utilization_rate = occupied / total * 100`; the backend that computes the rate is not
among the sources. -/
def utilizationRateOf (total_beds occupied_beds : ℚ) : ℚ :=
  occupied_beds / total_beds * 100

/-! ## Concrete inputs -/

/-- A waiting patient with priority 5 who has waited 1 hour. -/
def patientA : Patient :=
  { patient_id := 1, patient_name := "A", wait_hours := 1, priority_score := 5,
    icu_probability := 50, risk_level := "HIGH" }

/-- A waiting patient with priority 5 who has waited 9 hours. -/
def patientB : Patient :=
  { patient_id := 2, patient_name := "B", wait_hours := 9, priority_score := 5,
    icu_probability := 50, risk_level := "HIGH" }

/-- Scenario B of the spec: 10 beds, 9 occupied. -/
def scenarioB : ICUDashboardNew.Capacity :=
  { total_beds := some 10, available := some 1, occupied := some 9,
    utilization_rate := some (utilizationRateOf 10 9) }

/-- A server that refuses every allocation with the given error text. -/
def refusingServer (error : Option String) (_ : ICUDashboardNew.AllocateRequest) :
    ICUDashboardNew.FetchOutcome :=
  ICUDashboardNew.FetchOutcome.response false
    (ICUDashboardNew.Body.value { error := error, bed_info := none })

/-- A server that accepts every allocation and answers with room `"12"`. -/
def acceptingServer (_ : ICUDashboardNew.AllocateRequest) : ICUDashboardNew.FetchOutcome :=
  ICUDashboardNew.FetchOutcome.response true
    (ICUDashboardNew.Body.value { error := none, bed_info := some { room_number := some "12" } })

/-- A dashboard right after login, with an empty audit log. -/
def freshDashboard : ICUDashboardNew.Dashboard :=
  { admin := some { full_name := some "Dr. Rao", role := some "admin" },
    auditLog := [], alerts := [], refreshes := 0 }

/-! ## `ICUDashboard_new.jsx`: bed status updates -/

namespace ICUDashboardNew

/-- The request `updateBedStatus` sends: `PUT /api/admin/icu-beds/${bedId}/status` with the
JSON body `{ status: newStatus }`. -/
structure StatusRequest where
  bed_id : Nat
  status : String
  deriving DecidableEq

/-- Lines 81-96: `updateBedStatus(bedId, newStatus)`, as the list of effects it performs in
order. The handler never reads the body of the response: an ok response starts a refresh,
a response that is not ok has no branch, and the `catch` block writes to the console. -/
def updateBedStatus (fetch : StatusRequest → FetchOutcome) (bedId : Nat)
    (newStatus : String) : List Effect :=
  match fetch { bed_id := bedId, status := newStatus } with
  | FetchOutcome.rejected => [Effect.consoleError "Failed to update bed status:"]
  | FetchOutcome.response true _ => [Effect.fetchICUData]
  | FetchOutcome.response false _ => []

end ICUDashboardNew

/-! ## `ICUDashboard.jsx`: overview, beds and the allocate button -/

/-- The JavaScript expression `x || d` for a possibly missing number `x` and a default `d`:
`undefined` and `0` are falsy and give `d`, any other number is kept. -/
def jsOrNumber (x : Option ℚ) (d : ℚ) : ℚ :=
  match x with
  | none => d
  | some v => if v = 0 then d else v

/-- A bed as `BedsTab` reads it. -/
structure Bed where
  bed_id : Nat
  bed_number : String
  bed_type : String
  status : String
  has_ventilator : Bool
  has_dialysis : Bool
  has_ecmo : Bool
  deriving DecidableEq

namespace ICUDashboard

/-- The part of the `icuData` state that `OverviewTab` destructures (line 238). -/
structure IcuData where
  status : Status
  waitlist : List Patient
  forecast : List ForecastDay
  deriving DecidableEq

/-- Line 239: `const criticalPatients = waitlist.filter(p => p.risk_level === 'CRITICAL')`. -/
def OverviewTab.criticalPatients (icuData : IcuData) : List Patient :=
  icuData.waitlist.filter fun p => decide (p.risk_level = "CRITICAL")

/-- Lines 246-262: the critical patients alert, `criticalPatients.length > 0 && (...)`; the
patients it lists, one card each through `criticalPatients.map`, or `none` when the alert
is not rendered. -/
def OverviewTab.criticalAlert (icuData : IcuData) : Option (List Patient) :=
  if (OverviewTab.criticalPatients icuData).length > 0
  then some (OverviewTab.criticalPatients icuData) else none

/-- Lines 519-521: `beds.filter(b => b.status === 'Available').length`. -/
def BedsTab.availableCount (beds : List Bed) : Nat :=
  (beds.filter fun b => decide (b.status = "Available")).length

/-- Lines 525-527: `beds.filter(b => b.status === 'Occupied').length`. -/
def BedsTab.occupiedCount (beds : List Bed) : Nat :=
  (beds.filter fun b => decide (b.status = "Occupied")).length

/-- Lines 531-533: `beds.filter(b => b.status === 'Maintenance').length`. -/
def BedsTab.maintenanceCount (beds : List Bed) : Nat :=
  (beds.filter fun b => decide (b.status = "Maintenance")).length

/-- What `handleAutoAllocate` reads of the decoded response body. -/
structure AllocateData where
  message : Option String
  error : Option String
  deriving DecidableEq

/-- The outcome of `await response.json()` in `handleAutoAllocate`: the promise rejects, or
the body decodes to `null` (every property access throws), or to a value. -/
inductive Body where
  | unreadable
  | null
  | value (data : AllocateData)
  deriving DecidableEq

/-- The outcome of the `fetch` call of `handleAutoAllocate`, should it be made. -/
inductive FetchOutcome where
  | rejected
  | response (ok : Bool) (body : Body)
  deriving DecidableEq

/-- The side effects of `handleAutoAllocate`; `post url count` is the request
`fetch(url, { method: 'POST', body: JSON.stringify({ count }) })`. -/
inductive Effect where
  | alert (message : String)
  | post (url : String) (count : Nat)
  | fetchICUData
  | consoleError (message : String)
  deriving DecidableEq

/-- A template literal hole `${x}` for a possibly missing string. -/
def jsTemplate (x : Option String) : String :=
  match x with
  | none => "undefined"
  | some v => v

/-- The `catch` block of `handleAutoAllocate` (lines 100-103). -/
def handleAutoAllocateCatch : List Effect :=
  [Effect.consoleError "Manual allocation failed:", Effect.alert "Failed to allocate bed"]

/-- Line 78: `const canAllocate = Math.min(waitingCount, status.available_beds || 100)` with
`waitingCount = waitlist.length`. -/
def canAllocate (waitlist : List Patient) (status : Status) : ℚ :=
  min (waitlist.length : ℚ) (jsOrNumber status.available_beds 100)

/-- Lines 74-104: `handleAutoAllocate()`, as the list of effects it performs in order;
`server` is the outcome of the request if it is sent. -/
def handleAutoAllocate (waitlist : List Patient) (status : Status)
    (server : FetchOutcome) : List Effect :=
  if canAllocate waitlist status = 0 then
    [Effect.alert "No patients to allocate or no beds available"]
  else
    Effect.post "http://localhost:5000/api/admin/manual-allocate-bed" 1 ::
      match server with
      | FetchOutcome.rejected => handleAutoAllocateCatch
      | FetchOutcome.response _ Body.unreadable => handleAutoAllocateCatch
      | FetchOutcome.response _ Body.null => handleAutoAllocateCatch
      | FetchOutcome.response true (Body.value data) =>
        [Effect.alert ("✅ Bed allocated successfully!\n" ++ jsTemplate data.message),
          Effect.fetchICUData]
      | FetchOutcome.response false (Body.value data) =>
        [Effect.alert ("Failed to allocate bed: " ++ jsOrString data.error "Unknown error")]

/-- The requests sent among a list of effects. -/
def requestsOf (effects : List Effect) : List (String × Nat) :=
  effects.filterMap fun e =>
    match e with
    | Effect.post url count => some (url, count)
    | _ => none

/-- The messages shown by `alert` among a list of effects, in order. -/
def alertsOf (effects : List Effect) : List String :=
  effects.filterMap fun e =>
    match e with
    | Effect.alert message => some message
    | _ => none

end ICUDashboard

/-! ## More concrete inputs -/

/-- A server that refuses every bed status update (for example with a conflict). -/
def refusingStatusServer (_ : ICUDashboardNew.StatusRequest) : ICUDashboardNew.FetchOutcome :=
  ICUDashboardNew.FetchOutcome.response false
    (ICUDashboardNew.Body.value { error := some "BedOccupiedConflict", bed_info := none })

/-- A server that accepts every bed status update. -/
def acceptingStatusServer (_ : ICUDashboardNew.StatusRequest) : ICUDashboardNew.FetchOutcome :=
  ICUDashboardNew.FetchOutcome.response true
    (ICUDashboardNew.Body.value { error := none, bed_info := none })

/-- A status with 10 beds, all occupied, none available. -/
def fullStatus : ICUDashboard.Status :=
  { total_beds := some 10, available_beds := some 0, occupied_beds := some 10,
    utilization_rate := some 100 }

/-- A waiting patient at CRITICAL risk. -/
def patientC : Patient :=
  { patient_id := 3, patient_name := "C", wait_hours := 2, priority_score := 9,
    icu_probability := 90, risk_level := "CRITICAL" }

/-- A full unit with one CRITICAL and one HIGH patient waiting. -/
def fullUnit : ICUDashboard.IcuData :=
  { status := fullStatus, waitlist := [patientA, patientC], forecast := [] }

/-- Three beds, one of each status. -/
def threeBeds : List Bed :=
  [{ bed_id := 1, bed_number := "ICU-1", bed_type := "General", status := "Available",
     has_ventilator := false, has_dialysis := false, has_ecmo := false },
   { bed_id := 2, bed_number := "ICU-2", bed_type := "General", status := "Occupied",
     has_ventilator := true, has_dialysis := false, has_ecmo := false },
   { bed_id := 3, bed_number := "ICU-3", bed_type := "Cardiac", status := "Maintenance",
     has_ventilator := true, has_dialysis := true, has_ecmo := true }]

/-! ## `Patient/SymptomTracker.jsx` -/

namespace SymptomTracker

/-- The `symptoms` state of the daily check-in form. `temperature` is the text of the
number input, `painLevel` the integer read from the range input. -/
structure Symptoms where
  painLevel : Int
  temperature : String
  woundCondition : String
  sleepQuality : Int
  hoursSlept : String
  swelling : Bool
  redness : Bool
  discharge : Bool
  nausea : Bool
  dizziness : Bool
  shortnessOfBreath : Bool
  notes : String
  deriving DecidableEq

/-- The JavaScript expression `x >= c` for the result `x` of `parseFloat`, where `none` stands
for `NaN`: every comparison with `NaN` is `false`. -/
def jsGe (x : Option ℚ) (c : ℚ) : Bool :=
  match x with
  | none => false
  | some v => decide (v ≥ c)

/-- The statement `if (c) { redFlags.push(flag) }`. -/
def pushIf (c : Bool) (flag : String) (redFlags : List String) : List String :=
  if c then redFlags ++ [flag] else redFlags

/-- Lines 48-71: `checkForRedFlags()`. The built-in `parseFloat` is a parameter; it yields
the number parsed from the start of the text, or `none` for `NaN`. -/
def checkForRedFlags (parseFloat : String → Option ℚ) (symptoms : Symptoms) : List String :=
  let redFlags : List String := []
  let redFlags := pushIf (decide (symptoms.painLevel ≥ 8)) "Severe pain (8+/10)" redFlags
  let redFlags :=
    pushIf (jsGe (parseFloat symptoms.temperature) 101) "High fever (101°F+)" redFlags
  let redFlags :=
    pushIf (decide (symptoms.woundCondition = "poor")) "Poor wound condition" redFlags
  let redFlags := pushIf symptoms.discharge "Wound discharge" redFlags
  let redFlags := pushIf symptoms.shortnessOfBreath "Shortness of breath" redFlags
  let redFlags :=
    pushIf (symptoms.redness && symptoms.swelling) "Significant redness and swelling" redFlags
  redFlags

end SymptomTracker

/-! ## `Doctor/RiskAssessmentReport.jsx` -/

namespace RiskAssessmentReport

/-- The parts of `assessment` that the risk metric cards read. An object looked up by a
computed key is a function from keys; `none` stands for `undefined` or `null`. -/
structure Assessment where
  risks : String → Option ℚ
  risk_categories : Option (String → Option String)
  contributing_factors : Option (String → Option (List String))

/-- An element of `entries` (line 82). -/
structure Entry where
  key : String
  label : String
  value : ℚ
  category : Option String
  factors : Option (List String)
  deriving DecidableEq

/-- Line 71: `const keys = ['aki', 'cardiovascular', 'transfusion', 'mortality']`. -/
def keys : List String :=
  ["aki", "cardiovascular", "transfusion", "mortality"]

/-- Lines 72-77: `labelMap[k]`. -/
def labelMap (k : String) : Option String :=
  if k = "aki" then some "Acute Kidney Injury (AKI)"
  else if k = "cardiovascular" then some "Cardiovascular Complications"
  else if k = "transfusion" then some "Transfusion Required"
  else if k = "mortality" then some "Mortality Risk"
  else none

/-- Lines 80-83: the body of the reducer, `(acc, k) => ...`: a key whose value is
`undefined` or `null` is skipped, any other pushes its entry. -/
def addEntry (assessment : Assessment) (acc : List Entry) (k : String) : List Entry :=
  match assessment.risks k with
  | none => acc
  | some value =>
    acc ++ [{ key := k, label := jsOrString (labelMap k) k, value := value,
              category := assessment.risk_categories.bind fun m => m k,
              factors := assessment.contributing_factors.bind fun m => m k }]

/-- Lines 79-84: `const entries = keys.reduce(..., [])`. -/
def entries (assessment : Assessment) : List Entry :=
  keys.foldl (addEntry assessment) []

/-- Line 87: the comparator `(a, b) => b.value - a.value`. -/
def compare (a b : Entry) : ℚ :=
  b.value - a.value

/-- Lines 87-89: `entries.sort(compare)` and then one card for each entry, in order. -/
def cards (assessment : Assessment) : List Entry :=
  jsSort compare (entries assessment)

end RiskAssessmentReport

/-! ## `BloodReportUploader.jsx` -/

namespace BloodReportUploader

/-- What `handleFileSelect` reads of the browser's `File` object; `size` is in bytes. -/
structure UploadFile where
  name : String
  type : String
  size : Nat
  deriving DecidableEq

/-- The state updates and calls of `handleFileSelect`. -/
inductive Effect where
  | setError (error : Option String)
  | clearExtractedValues
  | setFile (file : UploadFile)
  | uploadAndExtract (file : UploadFile)
  deriving DecidableEq

/-- Line 42: `const allowedTypes = ['application/pdf', 'image/jpeg', 'image/jpg', 'image/png']`. -/
def allowedTypes : List String :=
  ["application/pdf", "image/jpeg", "image/jpg", "image/png"]

/-- Lines 37-56: `handleFileSelect(selectedFile)`, as the list of effects it performs in
order. -/
def handleFileSelect (selectedFile : UploadFile) : List Effect :=
  [Effect.setError none, Effect.clearExtractedValues] ++
    if !allowedTypes.contains selectedFile.type then
      [Effect.setError (some "Please upload a PDF, JPG, or PNG file")]
    else if selectedFile.size > 10 * 1024 * 1024 then
      [Effect.setError (some "File size must be less than 10MB")]
    else
      [Effect.setFile selectedFile, Effect.uploadAndExtract selectedFile]

/-- The file is accepted: it is handed to `uploadAndExtract`. -/
def accepts (selectedFile : UploadFile) : Bool :=
  (handleFileSelect selectedFile).contains (Effect.uploadAndExtract selectedFile)

/-- The error message left on the screen by a list of effects, if any: the last value
given to `setError`. -/
def errorOf (effects : List Effect) : Option String :=
  effects.foldl
    (fun error e =>
      match e with
      | Effect.setError m => m
      | _ => error)
    none

end BloodReportUploader

/-! ## Concrete inputs for the patient and doctor components -/

/-- The values of `parseFloat` on the texts used below: `"101.5"` and `"98.6"` parse to
their decimal values, and the empty text gives `NaN`; no other text is used. -/
def parseFloatSample (text : String) : Option ℚ :=
  if text = "101.5" then some (203 / 2)
  else if text = "98.6" then some (493 / 5)
  else none

/-- The form as it is after a reset (lines 101-114). -/
def blankSymptoms : SymptomTracker.Symptoms :=
  { painLevel := 0, temperature := "", woundCondition := "good", sleepQuality := 5,
    hoursSlept := "", swelling := false, redness := false, discharge := false,
    nausea := false, dizziness := false, shortnessOfBreath := false, notes := "" }

/-- A check-in with a temperature of 101.5 and nothing else of note. -/
def feverSymptoms : SymptomTracker.Symptoms :=
  { blankSymptoms with temperature := "101.5" }

/-- An assessment with three metrics, one of them 0, and no mortality value. -/
def sampleAssessment : RiskAssessmentReport.Assessment :=
  { risks := fun k =>
      if k = "aki" then some 0
      else if k = "cardiovascular" then some 40
      else if k = "transfusion" then some 15
      else none,
    risk_categories := none,
    contributing_factors := none }

/-- A PDF of exactly 10 MB. -/
def tenMegabytePdf : BloodReportUploader.UploadFile :=
  { name := "report.pdf", type := "application/pdf", size := 10485760 }

/-- A text file larger than 10 MB. -/
def largeTextFile : BloodReportUploader.UploadFile :=
  { name := "notes.txt", type := "text/plain", size := 20000000 }

/-! ## `Patient/RecoveryPlan.jsx` -/

namespace RecoveryPlan

/-- An element of a `milestones` or `goals` array. A daily milestone carries `category`,
`task`, `completed` and `priority`, a weekly goal carries `goal` and `status`; a property
that the object does not have is `none`. -/
structure Item where
  id : Nat
  category : Option String
  task : Option String
  completed : Option Bool
  priority : Option String
  goal : Option String
  status : Option String
  deriving DecidableEq

/-- An element of the `milestones` state: a day entry carries `day` and `milestones`, a
week entry carries `week` and `goals`. -/
structure Entry where
  day : Option Nat
  week : Option Nat
  phase : Option String
  milestones : Option (List Item)
  goals : Option (List Item)
  deriving DecidableEq

/-- The JavaScript expression `!x` for a possibly missing boolean: `undefined` is falsy. -/
def jsNot (x : Option Bool) : Bool :=
  match x with
  | some true => false
  | _ => true

/-- Line 133: `m => m.id === milestoneId ? { ...m, completed: !m.completed } : m`. -/
def toggleCompleted (milestoneId : Nat) (m : Item) : Item :=
  if m.id = milestoneId then { m with completed := some (jsNot m.completed) } else m

/-- Lines 135-136: `g => g.id === milestoneId
? { ...g, status: g.status === 'completed' ? 'in-progress' : 'completed' } : g`. -/
def toggleStatus (milestoneId : Nat) (g : Item) : Item :=
  if g.id = milestoneId then
    { g with status := some (if g.status = some "completed" then "in-progress" else "completed") }
  else g

/-- Lines 131-137: the function mapped over the entries,
`day => ({ ...day, milestones: day.milestones?.map(...) || day.goals?.map(...) })`.
An array is truthy, so the right operand of `||` is taken only when `day.milestones` is
missing; the result is stored under the key `milestones` in both cases. -/
def toggleEntry (milestoneId : Nat) (day : Entry) : Entry :=
  { day with
    milestones :=
      match day.milestones with
      | some ms => some (ms.map (toggleCompleted milestoneId))
      | none =>
        match day.goals with
        | some gs => some (gs.map (toggleStatus milestoneId))
        | none => none }

/-- Lines 129-140: the state update of `toggleMilestone(milestoneId)`,
`prev => prev.map(day => ...)`. -/
def toggleMilestone (milestoneId : Nat) (prev : List Entry) : List Entry :=
  prev.map (toggleEntry milestoneId)

/-- Lines 305-313: the goals that the weekly view renders for an entry,
`weekData.goals?.map(goal => ...)`, one card each. -/
def weeklyViewGoals (weekData : Entry) : List Item :=
  match weekData.goals with
  | some gs => gs
  | none => []

end RecoveryPlan

/-! ## `Patient/NearbyRehabCenters.jsx` -/

namespace NearbyRehabCenters

/-- A rehabilitation center as `applyFilters` and the list read it. -/
structure Center where
  id : Nat
  name : String
  type : String
  address : String
  phone : String
  distance : ℚ
  rating : ℚ
  reviews : Nat
  hours : String
  services : List String
  lat : ℚ
  lng : ℚ
  image : String
  deriving DecidableEq

/-- The method `text.includes(query)`: `query` occurs in `text` as a contiguous run of
characters. -/
def jsIncludes (text query : String) : Bool :=
  decide (List.IsInfix query.data text.data)

/-- Lines 161-165: the predicate of the search filter, with `query` already lower-cased.
The built-in `toLowerCase` is a parameter. -/
def matchesQuery (toLowerCase : String → String) (query : String) (center : Center) : Bool :=
  jsIncludes (toLowerCase center.name) query ||
  jsIncludes (toLowerCase center.address) query ||
  center.services.any fun service => jsIncludes (toLowerCase service) query

/-- Line 169: the comparator `(a, b) => a.distance - b.distance`. -/
def compare (a b : Center) : ℚ :=
  a.distance - b.distance

/-- Lines 150-172: `applyFilters()`; the list it passes to `setFilteredCenters`. -/
def applyFilters (toLowerCase : String → String) (centers : List Center)
    (filterType searchQuery : String) : List Center :=
  let filtered := centers
  let filtered :=
    if filterType ≠ "all" then filtered.filter fun center => decide (center.type = filterType)
    else filtered
  let filtered :=
    if searchQuery ≠ "" then filtered.filter (matchesQuery toLowerCase (toLowerCase searchQuery))
    else filtered
  jsSort compare filtered

end NearbyRehabCenters

/-! ## `ICUDashboard.jsx`: utilization of a forecast day -/

/-- Rounding of a rational to the nearest integer, a tie going to the even integer. -/
def roundHalfEven (x : ℚ) : ℤ :=
  if x - ⌊x⌋ < 1 / 2 then ⌊x⌋
  else if 1 / 2 < x - ⌊x⌋ then ⌊x⌋ + 1
  else if ⌊x⌋ % 2 = 0 then ⌊x⌋
  else ⌊x⌋ + 1

/-- The double nearest to a rational, as IEEE 754 arithmetic rounds the exact result of an
operation: with `2 ^ e ≤ |x| < 2 ^ (e + 1)`, the value is rounded to a multiple of
`2 ^ (e - 52)` (53 significant bits), a tie going to the even multiple. The exponent is
not bounded here: overflow to an infinity (from `2 ^ 1024`) and the subnormal range (below
`2 ^ (-1022)`) are outside the model, and no operation on bed counts reaches them. -/
def roundDouble (x : ℚ) : ℚ :=
  if x = 0 then 0
  else if 0 < x then
    roundHalfEven (x / 2 ^ (Int.log 2 x - 52)) * 2 ^ (Int.log 2 x - 52)
  else
    -(roundHalfEven (-x / 2 ^ (Int.log 2 (-x) - 52)) * 2 ^ (Int.log 2 (-x) - 52))

/-- A JavaScript number that results from a division: a finite value, an infinity or
`NaN`. -/
inductive JsNumber where
  | finite (value : ℚ)
  | posInfinity
  | negInfinity
  | nan
  deriving DecidableEq

/-- The JavaScript expression `a / b` on two bed counts, which are doubles that hold
integers (every integer below `2 ^ 53` in absolute value is one): a division by 0 gives an
infinity with the sign of `a`, or `NaN` for `0 / 0`; any other quotient is rounded to the
nearest double. -/
def jsDiv (a b : Int) : JsNumber :=
  if b = 0 then
    if a > 0 then JsNumber.posInfinity
    else if a < 0 then JsNumber.negInfinity
    else JsNumber.nan
  else JsNumber.finite (roundDouble ((a : ℚ) / (b : ℚ)))

/-- The JavaScript expression `x * c` for a positive constant `c` that is a double: the
product of two finite numbers is rounded to the nearest double. -/
def JsNumber.times (x : JsNumber) (c : ℚ) : JsNumber :=
  match x with
  | JsNumber.finite v => JsNumber.finite (roundDouble (v * c))
  | other => other

/-- The JavaScript expression `x > c` for a finite constant `c`. -/
def JsNumber.gt (x : JsNumber) (c : ℚ) : Bool :=
  match x with
  | JsNumber.finite v => decide (v > c)
  | JsNumber.posInfinity => true
  | _ => false

/-- The JavaScript expression `Math.min(x, c)` for a finite constant `c`. -/
def JsNumber.minWith (x : JsNumber) (c : ℚ) : JsNumber :=
  match x with
  | JsNumber.finite v => JsNumber.finite (min v c)
  | JsNumber.posInfinity => JsNumber.finite c
  | other => other

namespace ICUDashboard

/-- Line 376 (`ForecastTab`):
`const utilizationPercent = (day.predicted_demand / day.available_capacity) * 100`. -/
def ForecastTab.utilizationPercent (day : ForecastDay) : JsNumber :=
  (jsDiv day.predicted_demand day.available_capacity).times 100

/-- Line 418 (`ForecastTab`): the test `utilizationPercent > 100` that colours the
utilization bar red. -/
def ForecastTab.isOverCapacity (day : ForecastDay) : Bool :=
  (ForecastTab.utilizationPercent day).gt 100

/-- Line 424 (`ForecastTab`): the width of the utilization bar in percent,
`Math.min(utilizationPercent, 100)`. -/
def ForecastTab.barWidth (day : ForecastDay) : JsNumber :=
  (ForecastTab.utilizationPercent day).minWith 100

end ICUDashboard

/-! ## The allocator behind `/api/admin/allocate-bed` -/

namespace Allocator

/-- Modelled from the spec: the error conditions of `allocate` (section 4.2); the backend
that implements the allocator is not among the sources. -/
inductive AllocateError where
  | BedUnavailable
  | EquipmentMismatch
  | PatientNotFound
  | BedNotFound
  deriving DecidableEq

/-- Modelled from the spec: a waitlisted patient with the required equipment needs of the
data model (section 3). -/
structure WaitingPatient where
  patient_id : Nat
  needs_ventilator : Bool
  needs_dialysis : Bool
  needs_ecmo : Bool
  deriving DecidableEq

/-- Modelled from the spec: an `Allocation` of the data model (section 3). -/
structure Allocation where
  patient_id : Nat
  bed_id : Nat
  override : Bool
  deriving DecidableEq

/-- Modelled from the spec: the state the allocator acts on: waitlist, beds, active
allocations and the audit trail. -/
structure Engine where
  waitlist : List WaitingPatient
  beds : List Bed
  allocations : List Allocation
  audit : List String
  deriving DecidableEq

/-- Modelled from the spec: "bed's equipment flags must be a superset of the patient's
required equipment". -/
def equipmentOk (p : WaitingPatient) (b : Bed) : Bool :=
  (!p.needs_ventilator || b.has_ventilator) &&
  (!p.needs_dialysis || b.has_dialysis) &&
  (!p.needs_ecmo || b.has_ecmo)

/-- Modelled from the spec: `allocate(patient_id, bed_id, override)` of section 4.2. Unless
`override`, the bed must be Available and its equipment must cover the patient's needs;
`override` suppresses `BedUnavailable` and `EquipmentMismatch` "but must still fail if the
bed is in Maintenance". On success the allocation is created, the bed becomes Occupied,
the patient leaves the waitlist and an audit entry is appended. -/
def allocate (σ : Engine) (patient_id bed_id : Nat) (override : Bool) :
    Except AllocateError (Allocation × Engine) :=
  match σ.waitlist.find? fun p => decide (p.patient_id = patient_id) with
  | none => Except.error AllocateError.PatientNotFound
  | some p =>
    match σ.beds.find? fun b => decide (b.bed_id = bed_id) with
    | none => Except.error AllocateError.BedNotFound
    | some b =>
      if b.status = "Maintenance" then Except.error AllocateError.BedUnavailable
      else if b.status ≠ "Available" ∧ override = false then
        Except.error AllocateError.BedUnavailable
      else if equipmentOk p b = false ∧ override = false then
        Except.error AllocateError.EquipmentMismatch
      else
        Except.ok
          ({ patient_id := patient_id, bed_id := bed_id, override := override },
            { waitlist := σ.waitlist.filter fun q => decide (q.patient_id ≠ patient_id),
              beds := σ.beds.map fun c =>
                if c.bed_id = bed_id then { c with status := "Occupied" } else c,
              allocations :=
                { patient_id := patient_id, bed_id := bed_id, override := override } ::
                  σ.allocations,
              audit := σ.audit ++ ["allocate"] })

/-- Modelled from the spec: the name of an error as the server reports it. -/
def AllocateError.text : AllocateError → String
  | AllocateError.BedUnavailable => "BedUnavailable"
  | AllocateError.EquipmentMismatch => "EquipmentMismatch"
  | AllocateError.PatientNotFound => "PatientNotFound"
  | AllocateError.BedNotFound => "BedNotFound"

/-- Modelled from the spec: the endpoint `POST allocate {patient_id, bed_id, override?}`
(section 6) as the browser sees it: an ok response for an allocation, a response that is
not ok and carries the error otherwise. -/
def respond (σ : Engine) (request : ICUDashboardNew.AllocateRequest) :
    ICUDashboardNew.FetchOutcome :=
  match allocate σ request.patient_id request.bed_id request.override with
  | Except.ok _ =>
    ICUDashboardNew.FetchOutcome.response true
      (ICUDashboardNew.Body.value
        { error := none, bed_info := some { room_number := some (toString request.bed_id) } })
  | Except.error e =>
    ICUDashboardNew.FetchOutcome.response false
      (ICUDashboardNew.Body.value { error := some e.text, bed_info := none })

end Allocator

/-! ## Concrete inputs for the recovery plan, the centers and the allocator -/

/-- Week 1 of a recovery plan with one goal in progress. -/
def weekOne : RecoveryPlan.Entry :=
  { day := none, week := some 1, phase := some "Hospital Recovery", milestones := none,
    goals := some [{ id := 4, category := none, task := none, completed := none,
                     priority := none, goal := some "Wound healing well",
                     status := some "in-progress" }] }

/-- Day 2 of a recovery plan with one milestone done and one open. -/
def dayTwo : RecoveryPlan.Entry :=
  { day := some 2, week := none, phase := some "Immediate Post-Op",
    milestones := some
      [{ id := 6, category := some "Diet", task := some "Progress to soft foods",
         completed := some true, priority := some "medium", goal := none, status := none },
       { id := 7, category := some "Wound", task := some "First dressing change by nurse",
         completed := some false, priority := some "high", goal := none, status := none }],
    goals := none }

/-- A day with demand 11 against a capacity of 10. -/
def elevenOverTen : ForecastDay :=
  { date := "2025-11-04", predicted_demand := 11, available_capacity := 10,
    expected_discharges := 0 }

/-- Scenario D of the spec: demand 12 against a capacity of 9. -/
def scenarioD : ForecastDay :=
  { date := "2025-11-03", predicted_demand := 12, available_capacity := 9,
    expected_discharges := 1 }

/-- A unit whose bed 3 is under maintenance, with patient 7 waiting. -/
def maintenanceUnit : Allocator.Engine :=
  { waitlist := [{ patient_id := 7, needs_ventilator := false, needs_dialysis := false,
                   needs_ecmo := false }],
    beds := threeBeds, allocations := [], audit := [] }

/-! ## Lemmas on the sort -/

theorem orderedInsert_eq {α : Type} (cmp : α → α → ℚ) (a : α) (l : List α) :
    orderedInsert cmp a l = List.orderedInsert (fun x y => cmp x y ≤ 0) a l := by
  induction l with
  | nil => rfl
  | cons b l ih => simp [orderedInsert, List.orderedInsert, ih]

theorem jsSort_eq_insertionSort {α : Type} (cmp : α → α → ℚ) (l : List α) :
    jsSort cmp l = List.insertionSort (fun x y => cmp x y ≤ 0) l := by
  induction l with
  | nil => rfl
  | cons a l ih => simp [jsSort, List.insertionSort, ih, orderedInsert_eq]

theorem jsSort_perm {α : Type} (cmp : α → α → ℚ) (l : List α) : (jsSort cmp l).Perm l := by
  rw [jsSort_eq_insertionSort]
  exact List.perm_insertionSort _ l

/-- The comparator of `WaitlistTab` orders by non-increasing `priority_score`. -/
theorem compare_nonpos_iff (a b : Patient) :
    ICUDashboard.WaitlistTab.compare a b ≤ 0 ↔ b.priority_score ≤ a.priority_score := by
  simp [ICUDashboard.WaitlistTab.compare]

theorem sortedWaitlist_pairwise (waitlist : List Patient) :
    (ICUDashboard.WaitlistTab.sortedWaitlist waitlist).Pairwise
      (fun p1 p2 => p2.priority_score ≤ p1.priority_score) := by
  have total : IsTotal Patient (fun x y => ICUDashboard.WaitlistTab.compare x y ≤ 0) :=
    ⟨fun a b => by
      simp only [compare_nonpos_iff]
      exact le_total _ _⟩
  have trans : IsTrans Patient (fun x y => ICUDashboard.WaitlistTab.compare x y ≤ 0) :=
    ⟨fun a b c hab hbc => by
      simp only [compare_nonpos_iff] at *
      exact le_trans hbc hab⟩
  have h := List.sorted_insertionSort (fun x y => ICUDashboard.WaitlistTab.compare x y ≤ 0) waitlist
  rw [← jsSort_eq_insertionSort] at h
  exact List.Pairwise.imp (fun {a b} hab => (compare_nonpos_iff a b).mp hab) h

/-- Stability of the sort: a sublist of the input that is already in comparator order is
still a sublist of the output. -/
theorem jsSort_sublist {α : Type} (cmp : α → α → ℚ) {l c : List α}
    (hr : c.Pairwise (fun x y => cmp x y ≤ 0)) (hc : List.Sublist c l) :
    List.Sublist c (jsSort cmp l) := by
  rw [jsSort_eq_insertionSort]
  exact List.sublist_insertionSort hr hc

/-! ## Waitlist order -/

/-- C1: the list `WaitlistTab` displays is a permutation of the waitlist it receives and is
in non-increasing order of `priority_score`; a patient with a strictly greater
`priority_score` than another is displayed at an earlier position. -/
theorem C1_sortedWaitlist_perm_sorted (waitlist : List Patient) :
    (ICUDashboard.WaitlistTab.sortedWaitlist waitlist).Perm waitlist ∧
    (ICUDashboard.WaitlistTab.sortedWaitlist waitlist).Pairwise
      (fun p1 p2 => p1.priority_score ≥ p2.priority_score) ∧
    ∀ (i j : Nat) (hi : i < (ICUDashboard.WaitlistTab.sortedWaitlist waitlist).length)
      (hj : j < (ICUDashboard.WaitlistTab.sortedWaitlist waitlist).length),
      ((ICUDashboard.WaitlistTab.sortedWaitlist waitlist).get ⟨i, hi⟩).priority_score >
        ((ICUDashboard.WaitlistTab.sortedWaitlist waitlist).get ⟨j, hj⟩).priority_score →
      i < j := by
  refine ⟨jsSort_perm _ waitlist, sortedWaitlist_pairwise waitlist, ?_⟩
  intro i j hi hj hgt
  by_contra hij
  have hji : j ≤ i := Nat.le_of_not_lt hij
  rcases Nat.eq_or_lt_of_le hji with heq | hlt
  · subst heq
    exact lt_irrefl _ hgt
  · have h := List.pairwise_iff_get.mp (sortedWaitlist_pairwise waitlist) ⟨j, hj⟩ ⟨i, hi⟩ hlt
    exact absurd hgt (not_lt.mpr h)

/-- C2 (counterexample): `patientA` and `patientB` have the same `priority_score` and
`patientB` has waited longer, yet on the waitlist `[patientA, patientB]` the tab displays
`patientA` first; on `[patientB, patientA]` it displays `patientB` first, so the displayed
order follows the order in which the waitlist was received. -/
theorem C2_counterexample :
    patientA.priority_score = patientB.priority_score ∧
    patientA.wait_hours < patientB.wait_hours ∧
    ICUDashboard.WaitlistTab.sortedWaitlist [patientA, patientB] = [patientA, patientB] ∧
    ICUDashboard.WaitlistTab.sortedWaitlist [patientB, patientA] = [patientB, patientA] ∧
    ICUDashboard.WaitlistTab.sortedWaitlist [patientA, patientB] ≠
      ICUDashboard.WaitlistTab.sortedWaitlist [patientB, patientA] := by
  have h1 : ICUDashboard.WaitlistTab.sortedWaitlist [patientA, patientB] = [patientA, patientB] := by
    simp [ICUDashboard.WaitlistTab.sortedWaitlist, jsSort, orderedInsert,
      ICUDashboard.WaitlistTab.compare, patientA, patientB]
  have h2 : ICUDashboard.WaitlistTab.sortedWaitlist [patientB, patientA] = [patientB, patientA] := by
    simp [ICUDashboard.WaitlistTab.sortedWaitlist, jsSort, orderedInsert,
      ICUDashboard.WaitlistTab.compare, patientA, patientB]
  refine ⟨rfl, ?_, h1, h2, ?_⟩
  · simp [patientA, patientB]
  · rw [h1, h2]
    decide

/-- C2 (amended): patients with equal `priority_score` are displayed in the order in which
the waitlist lists them: for every score `k`, the displayed patients of score `k` are the
waitlist's patients of score `k` in the same order, and a patient listed before another of
the same score is displayed before it. Neither `wait_hours` nor `patient_id` is read. -/
theorem C2_equal_priority_keeps_received_order (waitlist : List Patient) :
    (∀ k : ℚ,
      (ICUDashboard.WaitlistTab.sortedWaitlist waitlist).filter
          (fun p => decide (p.priority_score = k)) =
        waitlist.filter (fun p => decide (p.priority_score = k))) ∧
    (∀ p1 p2 : Patient, p1.priority_score = p2.priority_score →
      List.Sublist [p1, p2] waitlist →
      List.Sublist [p1, p2] (ICUDashboard.WaitlistTab.sortedWaitlist waitlist)) := by
  constructor
  · intro k
    have hpw : (waitlist.filter (fun p => decide (p.priority_score = k))).Pairwise
        (fun x y => ICUDashboard.WaitlistTab.compare x y ≤ 0) := by
      apply List.pairwise_of_forall_mem_list
      intro a ha b hb
      have hak : a.priority_score = k := by simpa using (List.mem_filter.mp ha).2
      have hbk : b.priority_score = k := by simpa using (List.mem_filter.mp hb).2
      simp [compare_nonpos_iff, hak, hbk]
    have hsub := jsSort_sublist ICUDashboard.WaitlistTab.compare hpw (List.filter_sublist waitlist)
    have hsub2 := List.Sublist.filter (fun p : Patient => decide (p.priority_score = k)) hsub
    rw [List.filter_filter] at hsub2
    simp only [Bool.and_self] at hsub2
    have hlen := (List.Perm.filter (fun p : Patient => decide (p.priority_score = k))
      (jsSort_perm ICUDashboard.WaitlistTab.compare waitlist)).length_eq
    exact (List.Sublist.eq_of_length hsub2 hlen.symm).symm
  · intro p1 p2 heq hsub
    apply jsSort_sublist ICUDashboard.WaitlistTab.compare _ hsub
    simp [compare_nonpos_iff, heq]

/-! ## Capacity alerts -/

theorem jsGt_eq_true_iff (x : Option ℚ) (c : ℚ) :
    jsGt x c = true ↔ ∃ r, x = some r ∧ r > c := by
  cases x with
  | none => simp [jsGt]
  | some v => simp [jsGt]

/-- C3: the utilization status text is one of CRITICAL, HIGH, NORMAL; it is CRITICAL exactly
when `utilization_rate > 90`, HIGH exactly when `80 < utilization_rate ≤ 90`, and NORMAL
exactly when `utilization_rate > 80` does not hold (a missing rate included), so above 90,
where both thresholds are exceeded, the text is CRITICAL. -/
theorem C3_utilization_label (capacity : ICUDashboardNew.Capacity) :
    (ICUDashboardNew.utilizationLabel capacity = "CRITICAL" ∨
      ICUDashboardNew.utilizationLabel capacity = "HIGH" ∨
      ICUDashboardNew.utilizationLabel capacity = "NORMAL") ∧
    (ICUDashboardNew.utilizationLabel capacity = "CRITICAL" ↔
      ∃ r, capacity.utilization_rate = some r ∧ r > 90) ∧
    (ICUDashboardNew.utilizationLabel capacity = "HIGH" ↔
      ∃ r, capacity.utilization_rate = some r ∧ 80 < r ∧ r ≤ 90) ∧
    (ICUDashboardNew.utilizationLabel capacity = "NORMAL" ↔
      ¬ ∃ r, capacity.utilization_rate = some r ∧ r > 80) := by
  unfold ICUDashboardNew.utilizationLabel
  cases hrate : capacity.utilization_rate with
  | none => simp [jsGt]
  | some v =>
    by_cases h90 : v > 90
    · have h80 : v > 80 := by linarith
      simp [jsGt, h90, h80]
    · by_cases h80 : v > 80
      · have hle : v ≤ 90 := not_lt.mp h90
        simp [jsGt, h90, h80, hle]
      · simp [jsGt, h90, h80]

/-- C4: in `ICUDashboard.jsx` the capacity alert banner is rendered exactly when the status
carries a `utilization_rate` greater than 80, and a status without `utilization_rate` has
rate 0 and no banner; in `ICUDashboard_new.jsx` the capacity alert is rendered exactly when
`capacity.utilization_rate` is greater than 80, and never for a missing `capacity`. -/
theorem C4_capacity_alert (status : ICUDashboard.Status) (capacity : ICUDashboardNew.Capacity) :
    (ICUDashboard.isHighCapacity status = true ↔
      ∃ r, status.utilization_rate = some r ∧ r > 80) ∧
    (status.utilization_rate = none →
      ICUDashboard.utilizationRate status = 0 ∧ ICUDashboard.isHighCapacity status = false) ∧
    (ICUDashboardNew.isCapacityTight capacity = true ↔
      ∃ r, capacity.utilization_rate = some r ∧ r > 80) ∧
    ICUDashboardNew.isCapacityTight (ICUDashboardNew.capacityOf none) = false := by
  refine ⟨?_, ?_, jsGt_eq_true_iff _ _, ?_⟩
  · unfold ICUDashboard.isHighCapacity ICUDashboard.utilizationRate
    cases hrate : status.utilization_rate with
    | none => simp [jsOrZero]
    | some v =>
      by_cases hv : v = 0
      · simp [jsOrZero, hv]
      · simp [jsOrZero, hv]
  · intro hnone
    simp [ICUDashboard.isHighCapacity, ICUDashboard.utilizationRate, jsOrZero, hnone]
  · simp [ICUDashboardNew.isCapacityTight, ICUDashboardNew.capacityOf, jsGt]

theorem utilizationRateOf_scenarioB : utilizationRateOf 10 9 = 90 := by
  unfold utilizationRateOf
  norm_num

/-- C5 (counterexample): with 10 beds of which 9 are occupied the rate is 90, the test
`utilization_rate > 90` is false, and the status text shown is HIGH, not CRITICAL. -/
theorem C5_counterexample :
    utilizationRateOf 10 9 = 90 ∧
    scenarioB.utilization_rate = some 90 ∧
    jsGt scenarioB.utilization_rate 90 = false ∧
    ICUDashboardNew.utilizationLabel scenarioB = "HIGH" ∧
    ICUDashboardNew.utilizationLabel scenarioB ≠ "CRITICAL" := by
  have hrate : scenarioB.utilization_rate = some 90 := by
    simp [scenarioB, utilizationRateOf_scenarioB]
  have hlabel : ICUDashboardNew.utilizationLabel scenarioB = "HIGH" := by
    simp [ICUDashboardNew.utilizationLabel, hrate, jsGt]
    norm_num
  refine ⟨utilizationRateOf_scenarioB, hrate, ?_, hlabel, ?_⟩
  · simp [hrate, jsGt]
  · rw [hlabel]
    decide

/-- C5 (amended): whenever the rate is that of 9 occupied beds out of 10, that is 90, the
HIGH condition `utilization_rate > 80` holds and the capacity alert is shown, the CRITICAL
condition `utilization_rate > 90` does not hold, and the status text is HIGH. -/
theorem C5_label_at_ninety (capacity : ICUDashboardNew.Capacity)
    (h : capacity.utilization_rate = some (utilizationRateOf 10 9)) :
    jsGt capacity.utilization_rate 80 = true ∧
    ICUDashboardNew.isCapacityTight capacity = true ∧
    jsGt capacity.utilization_rate 90 = false ∧
    ICUDashboardNew.utilizationLabel capacity = "HIGH" := by
  rw [utilizationRateOf_scenarioB] at h
  have h80 : jsGt capacity.utilization_rate 80 = true := by
    rw [h]
    simp [jsGt]
    norm_num
  have h90 : jsGt capacity.utilization_rate 90 = false := by
    rw [h]
    simp [jsGt]
  refine ⟨h80, h80, h90, ?_⟩
  simp [ICUDashboardNew.utilizationLabel, h80, h90]

/-- C5 (witness): scenario B of the spec carries the rate of 9 occupied beds out of 10. -/
theorem C5_label_at_ninety_witness :
    scenarioB.utilization_rate = some (utilizationRateOf 10 9) ∧
    jsGt scenarioB.utilization_rate 80 = true ∧
    ICUDashboardNew.isCapacityTight scenarioB = true ∧
    jsGt scenarioB.utilization_rate 90 = false ∧
    ICUDashboardNew.utilizationLabel scenarioB = "HIGH" :=
  ⟨rfl, C5_label_at_ninety scenarioB rfl⟩

/-! ## Forecast shortage -/

/-- C6: `ForecastTab` and `OverviewTab` flag a day as a shortage exactly when
`predicted_demand > available_capacity`, a comparison of the two integers; the amount shown
is rendered exactly on flagged days and is `predicted_demand - available_capacity`, which on
a flagged day equals `max 0 (predicted_demand - available_capacity)`. -/
theorem C6_shortage_flag (day : ForecastDay) :
    (ICUDashboard.ForecastTab.isShortage day = true ↔
      day.predicted_demand > day.available_capacity) ∧
    (ICUDashboard.OverviewTab.isShortage day = true ↔
      day.predicted_demand > day.available_capacity) ∧
    ICUDashboard.ForecastTab.shortageBadge day =
      (if day.predicted_demand > day.available_capacity
        then some (day.predicted_demand - day.available_capacity) else none) ∧
    ICUDashboard.OverviewTab.shortageBadge day =
      (if day.predicted_demand > day.available_capacity
        then some (day.predicted_demand - day.available_capacity) else none) ∧
    (day.predicted_demand > day.available_capacity →
      ICUDashboard.ForecastTab.shortage day =
          max 0 (day.predicted_demand - day.available_capacity) ∧
        ICUDashboard.OverviewTab.shortage day =
          max 0 (day.predicted_demand - day.available_capacity)) := by
  have hF : ICUDashboard.ForecastTab.isShortage day = true ↔
      day.predicted_demand > day.available_capacity := by
    simp [ICUDashboard.ForecastTab.isShortage, ICUDashboard.ForecastTab.shortage]
  have hO : ICUDashboard.OverviewTab.isShortage day = true ↔
      day.predicted_demand > day.available_capacity := by
    simp [ICUDashboard.OverviewTab.isShortage, ICUDashboard.OverviewTab.shortage]
  refine ⟨hF, hO, ?_, ?_, ?_⟩
  · by_cases h : day.predicted_demand > day.available_capacity
    · simp [ICUDashboard.ForecastTab.shortageBadge, hF.mpr h, h,
        ICUDashboard.ForecastTab.shortage]
    · have hf : ICUDashboard.ForecastTab.isShortage day = false := by
        simpa using mt hF.mp h
      simp [ICUDashboard.ForecastTab.shortageBadge, hf, h]
  · by_cases h : day.predicted_demand > day.available_capacity
    · simp [ICUDashboard.OverviewTab.shortageBadge, hO.mpr h, h,
        ICUDashboard.OverviewTab.shortage]
    · have hf : ICUDashboard.OverviewTab.isShortage day = false := by
        simpa using mt hO.mp h
      simp [ICUDashboard.OverviewTab.shortageBadge, hf, h]
  · intro h
    have hpos : 0 ≤ day.predicted_demand - day.available_capacity := by omega
    simp [ICUDashboard.ForecastTab.shortage, ICUDashboard.OverviewTab.shortage,
      max_eq_right hpos]

/-! ## Audit log -/

theorem addAuditLog_eq_entry (c : ICUDashboardNew.AuditCall) (prev : List AuditLogEntry) :
    ICUDashboardNew.addAuditLog c.admin c.timestamp c.action prev = c.entry :: prev.take 49 :=
  rfl

theorem addAuditLog_length (admin : Option Admin) (timestamp action : String)
    (prev : List AuditLogEntry) :
    (ICUDashboardNew.addAuditLog admin timestamp action prev).length =
      min (prev.length + 1) 50 := by
  simp only [ICUDashboardNew.addAuditLog, List.length_cons, List.length_take]
  omega

theorem addAuditLogs_length_le (calls : List ICUDashboardNew.AuditCall) :
    ∀ log : List AuditLogEntry, log.length ≤ 50 →
      (ICUDashboardNew.addAuditLogs calls log).length ≤ 50 := by
  induction calls with
  | nil => intro log h; exact h
  | cons c cs ih =>
    intro log _
    simp only [ICUDashboardNew.addAuditLogs, List.foldl_cons]
    apply ih
    rw [addAuditLog_length]
    exact Nat.min_le_right _ _

/-- Cutting the tail of a list at 49 entries behind a new head does not change its first
50 entries. -/
theorem take_fifty_append_cons_take {α : Type} (xs : List α) (e : α) (l : List α) :
    (xs ++ e :: l.take 49).take 50 = (xs ++ e :: l).take 50 := by
  rw [List.take_append_eq_append_take, List.take_append_eq_append_take]
  congr 1
  cases h : 50 - xs.length with
  | zero => rfl
  | succ k =>
    have hk : k ≤ 49 := by omega
    simp only [List.take_succ_cons, List.take_take, Nat.min_eq_left hk]

/-- The log after a sequence of calls: the entries of the calls, latest first, in front of
the old log, cut at 50. -/
theorem addAuditLogs_eq (calls : List ICUDashboardNew.AuditCall) :
    ∀ log : List AuditLogEntry, log.length ≤ 50 →
      ICUDashboardNew.addAuditLogs calls log =
        ((calls.map ICUDashboardNew.AuditCall.entry).reverse ++ log).take 50 := by
  induction calls with
  | nil =>
    intro log h
    simp [ICUDashboardNew.addAuditLogs, List.take_of_length_le h]
  | cons c cs ih =>
    intro log _
    have hlen : (ICUDashboardNew.addAuditLog c.admin c.timestamp c.action log).length ≤ 50 := by
      rw [addAuditLog_length]
      exact Nat.min_le_right _ _
    have hstep := ih _ hlen
    simp only [ICUDashboardNew.addAuditLogs, List.foldl_cons] at hstep ⊢
    rw [hstep, addAuditLog_eq_entry, take_fifty_append_cons_take]
    simp

/-- C7: from the empty audit log, every finite sequence of `addAuditLog` calls leaves at
most 50 entries; one call on a log of length `n` gives a log of length `min (n + 1) 50`. -/
theorem C7_audit_log_capped (calls : List ICUDashboardNew.AuditCall) :
    (ICUDashboardNew.addAuditLogs calls []).length ≤ 50 ∧
    ∀ (admin : Option Admin) (timestamp action : String) (prev : List AuditLogEntry),
      (ICUDashboardNew.addAuditLog admin timestamp action prev).length =
        min (prev.length + 1) 50 :=
  ⟨addAuditLogs_length_le calls [] (by simp), addAuditLog_length⟩

/-- C8: `addAuditLog(action)` puts the new entry at the head, followed by the first 49
previous entries in their previous order; after calls with actions `a1..an` from the empty
log, the log has `min n 50` entries and its actions are the last `min n 50` of `a1..an`,
latest first. -/
theorem C8_audit_log_most_recent_first (calls : List ICUDashboardNew.AuditCall) :
    (∀ (admin : Option Admin) (timestamp action : String) (prev : List AuditLogEntry),
      ((ICUDashboardNew.addAuditLog admin timestamp action prev).head?.map
          fun e => (e.timestamp, e.action)) = some (timestamp, action) ∧
      (ICUDashboardNew.addAuditLog admin timestamp action prev).tail = prev.take 49) ∧
    (ICUDashboardNew.addAuditLogs calls []).length = min calls.length 50 ∧
    (ICUDashboardNew.addAuditLogs calls []).map (fun e => e.action) =
      ((calls.map fun c => c.action).reverse).take 50 ∧
    (ICUDashboardNew.addAuditLogs calls []).map (fun e => e.action) =
      ((calls.map fun c => c.action).drop (calls.length - min calls.length 50)).reverse := by
  have hlog := addAuditLogs_eq calls [] (by simp)
  have hactions : (ICUDashboardNew.addAuditLogs calls []).map (fun e => e.action) =
      ((calls.map fun c => c.action).reverse).take 50 := by
    rw [hlog]
    simp [List.map_take, ICUDashboardNew.AuditCall.entry, Function.comp_def]
  refine ⟨?_, ?_, hactions, ?_⟩
  · intro admin timestamp action prev
    simp [ICUDashboardNew.addAuditLog]
  · rw [hlog]
    simp [List.length_take, Nat.min_comm]
  · rw [hactions, List.take_reverse]
    congr 2
    simp only [List.length_map]
    omega

/-! ## Manual allocation -/

/-- The effects of the `catch` block write nothing to the audit log. -/
theorem perform_allocateBedCatch (now : String) (σ : ICUDashboardNew.Dashboard) :
    (ICUDashboardNew.perform now σ ICUDashboardNew.allocateBedCatch).auditLog = σ.auditLog := by
  simp [ICUDashboardNew.perform, ICUDashboardNew.allocateBedCatch,
    ICUDashboardNew.Effect.perform]

/-- The effects of `allocateBed` when the server answers with a response that is not ok. -/
theorem allocateBed_not_ok (fetch : ICUDashboardNew.AllocateRequest → ICUDashboardNew.FetchOutcome)
    (patientId bedId : Nat) (isOverride : Bool) (body : ICUDashboardNew.Body) :
    fetch { patient_id := patientId, bed_id := bedId, override := isOverride } =
      ICUDashboardNew.FetchOutcome.response false body →
    ICUDashboardNew.allocateBed fetch patientId bedId isOverride =
      match body with
      | ICUDashboardNew.Body.value data =>
        [ICUDashboardNew.Effect.alert (jsOrString data.error "Failed to allocate bed")]
      | _ => ICUDashboardNew.allocateBedCatch := by
  intro h
  simp only [ICUDashboardNew.allocateBed, h]
  cases body <;> rfl

/-- Two runs on a fresh dashboard at clock reading `t`: an accepted allocation writes its
entry under the administrator's name, shows the success message and starts a refresh; a
refused one shows the server's text and leaves the audit log empty. -/
theorem allocateBed_runs :
    ICUDashboardNew.perform "t" freshDashboard
        (ICUDashboardNew.allocateBed acceptingServer 3 1 false) =
      { admin := freshDashboard.admin,
        auditLog := [{ timestamp := "t", action := "Bed allocated to patient 3 - Room 12",
                       admin := "Dr. Rao" }],
        alerts := ["Bed allocated successfully!"], refreshes := 1 } ∧
    ICUDashboardNew.perform "t" freshDashboard
        (ICUDashboardNew.allocateBed (refusingServer (some "Bed 1 is occupied")) 3 1 false) =
      { admin := freshDashboard.admin, auditLog := [],
        alerts := ["Bed 1 is occupied"], refreshes := 0 } := by
  constructor <;> decide

/-- C9: `allocateBed` writes to the audit log exactly when the request succeeded (the
response is ok and its body was read); then it writes the one entry of the allocation.
When the server rejects the allocation (response not ok), and when the request throws
(`fetch` rejects or the body cannot be read), it writes nothing and the audit log is
left as it was. -/
theorem C9_allocateBed_audit_iff_success
    (fetch : ICUDashboardNew.AllocateRequest → ICUDashboardNew.FetchOutcome)
    (patientId bedId : Nat) (isOverride : Bool) (now : String)
    (σ : ICUDashboardNew.Dashboard) :
    (ICUDashboardNew.auditWritesOf (ICUDashboardNew.allocateBed fetch patientId bedId isOverride)
        ≠ [] ↔
      (fetch { patient_id := patientId, bed_id := bedId, override := isOverride }).succeeded
        = true) ∧
    (∀ result : ICUDashboardNew.ResponseData,
      fetch { patient_id := patientId, bed_id := bedId, override := isOverride } =
        ICUDashboardNew.FetchOutcome.response true (ICUDashboardNew.Body.value result) →
      (ICUDashboardNew.perform now σ
          (ICUDashboardNew.allocateBed fetch patientId bedId isOverride)).auditLog =
        ICUDashboardNew.addAuditLog σ.admin now
          ("Bed allocated to patient " ++ toString patientId ++ " - Room " ++
            ICUDashboardNew.jsTemplate (result.bed_info.bind fun b => b.room_number))
          σ.auditLog) ∧
    (∀ body : ICUDashboardNew.Body,
      fetch { patient_id := patientId, bed_id := bedId, override := isOverride } =
        ICUDashboardNew.FetchOutcome.response false body →
      ICUDashboardNew.auditWritesOf
          (ICUDashboardNew.allocateBed fetch patientId bedId isOverride) = [] ∧
        (ICUDashboardNew.perform now σ
          (ICUDashboardNew.allocateBed fetch patientId bedId isOverride)).auditLog =
          σ.auditLog) ∧
    ((fetch { patient_id := patientId, bed_id := bedId, override := isOverride } =
          ICUDashboardNew.FetchOutcome.rejected ∨
        fetch { patient_id := patientId, bed_id := bedId, override := isOverride } =
          ICUDashboardNew.FetchOutcome.response true ICUDashboardNew.Body.unreadable ∨
        fetch { patient_id := patientId, bed_id := bedId, override := isOverride } =
          ICUDashboardNew.FetchOutcome.response true ICUDashboardNew.Body.null) →
      ICUDashboardNew.auditWritesOf
          (ICUDashboardNew.allocateBed fetch patientId bedId isOverride) = [] ∧
        (ICUDashboardNew.perform now σ
          (ICUDashboardNew.allocateBed fetch patientId bedId isOverride)).auditLog =
          σ.auditLog) := by
  refine ⟨?_, ?_, ?_, ?_⟩
  · unfold ICUDashboardNew.allocateBed
    cases hf : fetch { patient_id := patientId, bed_id := bedId, override := isOverride } with
    | rejected =>
      simp [ICUDashboardNew.auditWritesOf, ICUDashboardNew.allocateBedCatch,
        ICUDashboardNew.FetchOutcome.succeeded]
    | response ok body =>
      cases ok <;> cases body <;>
        simp [ICUDashboardNew.auditWritesOf, ICUDashboardNew.allocateBedCatch,
          ICUDashboardNew.FetchOutcome.succeeded]
  · intro result hf
    unfold ICUDashboardNew.allocateBed
    rw [hf]
    simp [ICUDashboardNew.perform, ICUDashboardNew.Effect.perform]
  · intro body hf
    rw [allocateBed_not_ok fetch patientId bedId isOverride body hf]
    cases body <;>
      simp [ICUDashboardNew.auditWritesOf, ICUDashboardNew.allocateBedCatch,
        ICUDashboardNew.perform, ICUDashboardNew.Effect.perform]
  · intro hf
    unfold ICUDashboardNew.allocateBed
    rcases hf with hf | hf | hf <;> rw [hf] <;>
      simp [ICUDashboardNew.auditWritesOf, ICUDashboardNew.allocateBedCatch,
        ICUDashboardNew.perform, ICUDashboardNew.Effect.perform]

/-- C10: every rejected allocation is surfaced. When the allocate-bed response is not ok,
`allocateBed` shows exactly one alert, the server's error text if the response carries a
non-empty error and `Failed to allocate bed` otherwise (no error, an empty error, or a body
that cannot be read), so it never completes silently. The success branch is not run: no
audit entry is written, no refresh is started, the effects are not those of a successful
allocation, and the only texts shown are the server's own error text and the fallback, so
the success message is not shown. -/
theorem C10_rejected_allocation_is_surfaced
    (fetch : ICUDashboardNew.AllocateRequest → ICUDashboardNew.FetchOutcome)
    (patientId bedId : Nat) (isOverride : Bool) (body : ICUDashboardNew.Body)
    (h : fetch { patient_id := patientId, bed_id := bedId, override := isOverride } =
      ICUDashboardNew.FetchOutcome.response false body) :
    (∀ (data : ICUDashboardNew.ResponseData) (e : String),
      body = ICUDashboardNew.Body.value data → data.error = some e → e ≠ "" →
      ICUDashboardNew.alertsOf
        (ICUDashboardNew.allocateBed fetch patientId bedId isOverride) = [e]) ∧
    ((∀ (data : ICUDashboardNew.ResponseData) (e : String),
        body = ICUDashboardNew.Body.value data → data.error = some e → e = "") →
      ICUDashboardNew.alertsOf
        (ICUDashboardNew.allocateBed fetch patientId bedId isOverride) =
        ["Failed to allocate bed"]) ∧
    (ICUDashboardNew.alertsOf
      (ICUDashboardNew.allocateBed fetch patientId bedId isOverride)).length = 1 ∧
    ICUDashboardNew.auditWritesOf
      (ICUDashboardNew.allocateBed fetch patientId bedId isOverride) = [] ∧
    ICUDashboardNew.Effect.fetchICUData ∉
      ICUDashboardNew.allocateBed fetch patientId bedId isOverride ∧
    (∀ action : String,
      ICUDashboardNew.allocateBed fetch patientId bedId isOverride ≠
        [ICUDashboardNew.Effect.addAuditLog action, ICUDashboardNew.Effect.fetchICUData,
          ICUDashboardNew.Effect.alert "Bed allocated successfully!"]) ∧
    (∀ message ∈ ICUDashboardNew.alertsOf
        (ICUDashboardNew.allocateBed fetch patientId bedId isOverride),
      message = "Failed to allocate bed" ∨
      ∃ data : ICUDashboardNew.ResponseData,
        body = ICUDashboardNew.Body.value data ∧ data.error = some message) ∧
    ((∀ data : ICUDashboardNew.ResponseData, body = ICUDashboardNew.Body.value data →
        data.error ≠ some "Bed allocated successfully!") →
      "Bed allocated successfully!" ∉ ICUDashboardNew.alertsOf
        (ICUDashboardNew.allocateBed fetch patientId bedId isOverride)) := by
  rw [allocateBed_not_ok fetch patientId bedId isOverride body h]
  cases body with
  | unreadable =>
    simp [ICUDashboardNew.alertsOf, ICUDashboardNew.auditWritesOf,
      ICUDashboardNew.allocateBedCatch]
  | null =>
    simp [ICUDashboardNew.alertsOf, ICUDashboardNew.auditWritesOf,
      ICUDashboardNew.allocateBedCatch]
  | value data =>
    refine ⟨?_, ?_, ?_, ?_, ?_, ?_, ?_, ?_⟩
    · intro d e hd herr hne
      cases hd
      simp [ICUDashboardNew.alertsOf, jsOrString, herr, hne]
    · intro hall
      cases herr : data.error with
      | none => simp [ICUDashboardNew.alertsOf, jsOrString, herr]
      | some e =>
        have he : e = "" := hall data e rfl herr
        simp [ICUDashboardNew.alertsOf, jsOrString, herr, he]
    · simp [ICUDashboardNew.alertsOf]
    · simp [ICUDashboardNew.auditWritesOf]
    · simp
    · intro action
      simp
    · intro message hmem
      simp only [ICUDashboardNew.alertsOf, List.filterMap_cons, List.filterMap_nil,
        List.mem_singleton] at hmem
      cases herr : data.error with
      | none =>
        left
        simpa [jsOrString, herr] using hmem
      | some e =>
        by_cases he : e = ""
        · left
          simpa [jsOrString, herr, he] using hmem
        · right
          refine ⟨data, rfl, ?_⟩
          have : message = e := by simpa [jsOrString, herr, he] using hmem
          rw [this, herr]
    · intro hno
      have hdata := hno data rfl
      cases herr : data.error with
      | none => simp [ICUDashboardNew.alertsOf, jsOrString, herr]
      | some e =>
        by_cases he : e = ""
        · subst he
          simp [ICUDashboardNew.alertsOf, jsOrString, herr]
        · simp [ICUDashboardNew.alertsOf, jsOrString, herr, he]
          intro heq
          apply hdata
          rw [herr, heq]

/-- C10 (witness): a server that refuses bed 1 for patient 3 with the text
`Bed 1 is occupied`; that text is the one alert shown. -/
theorem C10_rejected_allocation_is_surfaced_witness :
    refusingServer (some "Bed 1 is occupied")
        { patient_id := 3, bed_id := 1, override := false } =
      ICUDashboardNew.FetchOutcome.response false
        (ICUDashboardNew.Body.value { error := some "Bed 1 is occupied", bed_info := none }) ∧
    ICUDashboardNew.alertsOf
        (ICUDashboardNew.allocateBed (refusingServer (some "Bed 1 is occupied")) 3 1 false) =
      ["Bed 1 is occupied"] :=
  ⟨rfl,
    (C10_rejected_allocation_is_surfaced (refusingServer (some "Bed 1 is occupied")) 3 1 false
      (ICUDashboardNew.Body.value { error := some "Bed 1 is occupied", bed_info := none })
      rfl).1 { error := some "Bed 1 is occupied", bed_info := none } "Bed 1 is occupied"
      rfl rfl (by decide)⟩

/-! ## Bed status updates -/

/-- C11 (the code at the failing input): when the server answers a bed status update with a
response that is not ok, `updateBedStatus` performs no effect at all: no alert is shown,
nothing is written to the console, and the dashboard is left exactly as it was. -/
theorem C11_rejected_update_is_silent
    (fetch : ICUDashboardNew.StatusRequest → ICUDashboardNew.FetchOutcome)
    (bedId : Nat) (newStatus now : String) (body : ICUDashboardNew.Body)
    (σ : ICUDashboardNew.Dashboard)
    (h : fetch { bed_id := bedId, status := newStatus } =
      ICUDashboardNew.FetchOutcome.response false body) :
    ICUDashboardNew.updateBedStatus fetch bedId newStatus = [] ∧
    ICUDashboardNew.alertsOf (ICUDashboardNew.updateBedStatus fetch bedId newStatus) = [] ∧
    ICUDashboardNew.perform now σ (ICUDashboardNew.updateBedStatus fetch bedId newStatus) = σ := by
  have hnone : ICUDashboardNew.updateBedStatus fetch bedId newStatus = [] := by
    simp only [ICUDashboardNew.updateBedStatus, h]
  rw [hnone]
  exact ⟨rfl, rfl, rfl⟩

/-- C11 (witness): bed 2 is occupied and the server refuses to put it under maintenance;
the handler shows nothing. -/
theorem C11_rejected_update_is_silent_witness :
    refusingStatusServer { bed_id := 2, status := "Maintenance" } =
      ICUDashboardNew.FetchOutcome.response false
        (ICUDashboardNew.Body.value { error := some "BedOccupiedConflict", bed_info := none }) ∧
    ICUDashboardNew.alertsOf
      (ICUDashboardNew.updateBedStatus refusingStatusServer 2 "Maintenance") = [] :=
  ⟨rfl,
    (C11_rejected_update_is_silent refusingStatusServer 2 "Maintenance" "t"
      (ICUDashboardNew.Body.value { error := some "BedOccupiedConflict", bed_info := none })
      freshDashboard rfl).2.1⟩

/-- C12 (the code at the failing input): when the server accepts a bed status update,
`updateBedStatus` only starts a refresh; it writes nothing to the audit log, which is left
as it was. -/
theorem C12_successful_update_writes_no_audit_entry
    (fetch : ICUDashboardNew.StatusRequest → ICUDashboardNew.FetchOutcome)
    (bedId : Nat) (newStatus now : String) (body : ICUDashboardNew.Body)
    (σ : ICUDashboardNew.Dashboard)
    (h : fetch { bed_id := bedId, status := newStatus } =
      ICUDashboardNew.FetchOutcome.response true body) :
    ICUDashboardNew.updateBedStatus fetch bedId newStatus =
      [ICUDashboardNew.Effect.fetchICUData] ∧
    ICUDashboardNew.auditWritesOf
      (ICUDashboardNew.updateBedStatus fetch bedId newStatus) = [] ∧
    (ICUDashboardNew.perform now σ
      (ICUDashboardNew.updateBedStatus fetch bedId newStatus)).auditLog = σ.auditLog := by
  have hfx : ICUDashboardNew.updateBedStatus fetch bedId newStatus =
      [ICUDashboardNew.Effect.fetchICUData] := by
    simp only [ICUDashboardNew.updateBedStatus, h]
  rw [hfx]
  exact ⟨rfl, rfl, rfl⟩

/-- C12 (witness): the server accepts putting bed 1 under maintenance; the audit log of a
fresh dashboard stays empty. -/
theorem C12_successful_update_writes_no_audit_entry_witness :
    acceptingStatusServer { bed_id := 1, status := "Maintenance" } =
      ICUDashboardNew.FetchOutcome.response true
        (ICUDashboardNew.Body.value { error := none, bed_info := none }) ∧
    (ICUDashboardNew.perform "t" freshDashboard
      (ICUDashboardNew.updateBedStatus acceptingStatusServer 1 "Maintenance")).auditLog = [] :=
  ⟨rfl,
    (C12_successful_update_writes_no_audit_entry acceptingStatusServer 1 "Maintenance" "t"
      (ICUDashboardNew.Body.value { error := none, bed_info := none })
      freshDashboard rfl).2.2⟩

/-! ## Overview alerts -/

/-- C13: the critical patients alert of `OverviewTab` is rendered exactly when some waitlist
patient has `risk_level` CRITICAL, whatever `available_beds` is and so also when it is 0;
it lists exactly the CRITICAL patients of the waitlist, in waitlist order; it does not
depend on the status that decides the capacity alert, and on a full unit with a CRITICAL
patient waiting both alerts are rendered. -/
theorem C13_critical_patients_alert (icuData : ICUDashboard.IcuData) :
    (ICUDashboard.OverviewTab.criticalAlert icuData ≠ none ↔
      ∃ p ∈ icuData.waitlist, p.risk_level = "CRITICAL") ∧
    ((∃ p ∈ icuData.waitlist, p.risk_level = "CRITICAL") →
      icuData.status.available_beds = some 0 →
      ICUDashboard.OverviewTab.criticalAlert icuData =
        some (icuData.waitlist.filter fun p => decide (p.risk_level = "CRITICAL"))) ∧
    (∀ shown, ICUDashboard.OverviewTab.criticalAlert icuData = some shown →
      shown = (icuData.waitlist.filter fun p => decide (p.risk_level = "CRITICAL")) ∧
      List.Sublist shown icuData.waitlist ∧
      ∀ p, p ∈ shown ↔ p ∈ icuData.waitlist ∧ p.risk_level = "CRITICAL") ∧
    (∀ status : ICUDashboard.Status,
      ICUDashboard.OverviewTab.criticalAlert { icuData with status := status } =
        ICUDashboard.OverviewTab.criticalAlert icuData) ∧
    (ICUDashboard.isHighCapacity fullUnit.status = true ∧
      fullUnit.status.available_beds = some 0 ∧
      ICUDashboard.OverviewTab.criticalAlert fullUnit = some [patientC]) := by
  have hiff : ICUDashboard.OverviewTab.criticalAlert icuData ≠ none ↔
      ∃ p ∈ icuData.waitlist, p.risk_level = "CRITICAL" := by
    unfold ICUDashboard.OverviewTab.criticalAlert ICUDashboard.OverviewTab.criticalPatients
    by_cases hlen : (icuData.waitlist.filter fun p => decide (p.risk_level = "CRITICAL")).length > 0
    · simp only [hlen, if_true, ne_eq, not_false_eq_true, true_iff, reduceCtorEq]
      obtain ⟨p, hp⟩ := List.exists_mem_of_length_pos hlen
      have hp2 := List.mem_filter.mp hp
      exact ⟨p, hp2.1, by simpa using hp2.2⟩
    · simp only [hlen, if_false, ne_eq, not_true_eq_false, false_iff]
      rintro ⟨p, hp, hc⟩
      apply hlen
      apply List.length_pos_of_mem
      exact List.mem_filter.mpr ⟨hp, by simpa using hc⟩
  have hsome : ∀ shown, ICUDashboard.OverviewTab.criticalAlert icuData = some shown →
      shown = (icuData.waitlist.filter fun p => decide (p.risk_level = "CRITICAL")) := by
    intro shown h
    unfold ICUDashboard.OverviewTab.criticalAlert ICUDashboard.OverviewTab.criticalPatients at h
    split at h
    · exact (Option.some.inj h).symm
    · cases h
  refine ⟨hiff, ?_, ?_, ?_, ?_⟩
  · intro hex _
    have hne := hiff.mpr hex
    cases hres : ICUDashboard.OverviewTab.criticalAlert icuData with
    | none => exact absurd hres hne
    | some shown => rw [hsome shown hres]
  · intro shown h
    have heq := hsome shown h
    refine ⟨heq, ?_, ?_⟩
    · rw [heq]
      exact List.filter_sublist _
    · intro p
      rw [heq, List.mem_filter]
      simp
  · intro status
    rfl
  · refine ⟨?_, rfl, ?_⟩
    · simp [ICUDashboard.isHighCapacity, ICUDashboard.utilizationRate, jsOrZero, fullUnit,
        fullStatus]
      norm_num
    · decide

/-! ## Bed summary -/

/-- C14: for a bed list in which every status is one of Available, Occupied, Maintenance,
the three counts of the `BedsTab` summary add up to the number of beds. -/
theorem C14_bed_summary_counts (beds : List Bed)
    (h : ∀ b ∈ beds, b.status = "Available" ∨ b.status = "Occupied" ∨ b.status = "Maintenance") :
    ICUDashboard.BedsTab.availableCount beds + ICUDashboard.BedsTab.occupiedCount beds +
      ICUDashboard.BedsTab.maintenanceCount beds = beds.length := by
  unfold ICUDashboard.BedsTab.availableCount ICUDashboard.BedsTab.occupiedCount
    ICUDashboard.BedsTab.maintenanceCount
  induction beds with
  | nil => rfl
  | cons b bs ih =>
    have hb := h b (List.mem_cons_self b bs)
    have ih2 := ih (fun x hx => h x (List.mem_cons_of_mem b hx))
    rcases hb with hb | hb | hb <;>
      simp [List.filter_cons, hb] <;> omega

/-- C14 (witness): three beds, one of each status. -/
theorem C14_bed_summary_counts_witness :
    ICUDashboard.BedsTab.availableCount threeBeds + ICUDashboard.BedsTab.occupiedCount threeBeds +
      ICUDashboard.BedsTab.maintenanceCount threeBeds = 3 :=
  C14_bed_summary_counts threeBeds (by decide)

/-! ## The allocate button -/

/-- C15 (the code at the failing input): with at least one patient waiting and
`status.available_beds` equal to 0, `available_beds || 100` is 100, so `canAllocate` is not
0: `handleAutoAllocate` sends the allocation request and does not show
`No patients to allocate or no beds available`, whatever the server answers. -/
theorem C15_request_sent_with_no_bed_available (waitlist : List Patient)
    (status : ICUDashboard.Status) (server : ICUDashboard.FetchOutcome)
    (hw : waitlist ≠ []) (hb : status.available_beds = some 0) :
    ICUDashboard.canAllocate waitlist status = min (waitlist.length : ℚ) 100 ∧
    ICUDashboard.requestsOf (ICUDashboard.handleAutoAllocate waitlist status server) =
      [("http://localhost:5000/api/admin/manual-allocate-bed", 1)] ∧
    "No patients to allocate or no beds available" ∉
      ICUDashboard.alertsOf (ICUDashboard.handleAutoAllocate waitlist status server) := by
  have hcan : ICUDashboard.canAllocate waitlist status = min (waitlist.length : ℚ) 100 := by
    simp [ICUDashboard.canAllocate, jsOrNumber, hb]
  have hlen : (1 : ℚ) ≤ (waitlist.length : ℚ) := by
    have : 1 ≤ waitlist.length := List.length_pos.mpr hw
    exact_mod_cast this
  have hne : ICUDashboard.canAllocate waitlist status ≠ 0 := by
    rw [hcan]
    have : (1 : ℚ) ≤ min (waitlist.length : ℚ) 100 := le_min hlen (by norm_num)
    linarith
  refine ⟨hcan, ?_, ?_⟩
  · unfold ICUDashboard.handleAutoAllocate
    rw [if_neg hne]
    rcases server with _ | ⟨ok, body⟩
    · simp [ICUDashboard.requestsOf, ICUDashboard.handleAutoAllocateCatch]
    · cases ok <;> cases body <;>
        simp [ICUDashboard.requestsOf, ICUDashboard.handleAutoAllocateCatch]
  · have hfail : ∀ x : String,
        "No patients to allocate or no beds available" ≠ "Failed to allocate bed: " ++ x := by
      intro x hx
      have hhead := congrArg (fun t : String => t.data.head?) hx
      simp [String.data_append] at hhead
    have hdone : ∀ x : String,
        "No patients to allocate or no beds available" ≠
          "✅ Bed allocated successfully!\n" ++ x := by
      intro x hx
      have hhead := congrArg (fun t : String => t.data.head?) hx
      simp [String.data_append] at hhead
    unfold ICUDashboard.handleAutoAllocate
    rw [if_neg hne]
    rcases server with _ | ⟨ok, body⟩
    · simp [ICUDashboard.alertsOf, ICUDashboard.handleAutoAllocateCatch]
    · cases ok <;> cases body <;>
        simp [ICUDashboard.alertsOf, ICUDashboard.handleAutoAllocateCatch, hfail, hdone]

/-- C15 (witness): one patient waiting, no bed available, a server that refuses. -/
theorem C15_request_sent_with_no_bed_available_witness :
    [patientA] ≠ [] ∧ fullStatus.available_beds = some 0 ∧
    ICUDashboard.requestsOf
        (ICUDashboard.handleAutoAllocate [patientA] fullStatus
          (ICUDashboard.FetchOutcome.response false
            (ICUDashboard.Body.value { message := none, error := some "No beds" }))) =
      [("http://localhost:5000/api/admin/manual-allocate-bed", 1)] :=
  ⟨by decide, rfl,
    (C15_request_sent_with_no_bed_available [patientA] fullStatus
      (ICUDashboard.FetchOutcome.response false
        (ICUDashboard.Body.value { message := none, error := some "No beds" }))
      (by decide) rfl).2.1⟩

/-! ## Red flags of the symptom tracker -/

theorem jsGe_eq_true_iff (x : Option ℚ) (c : ℚ) :
    SymptomTracker.jsGe x c = true ↔ ∃ t, x = some t ∧ t ≥ c := by
  cases x with
  | none => simp [SymptomTracker.jsGe]
  | some v => simp [SymptomTracker.jsGe]

/-- A conditional push adds at most one entry. -/
theorem pushIf_length_le {c : Bool} {flag : String} {redFlags : List String} {n : Nat}
    (h : redFlags.length ≤ n) : (SymptomTracker.pushIf c flag redFlags).length ≤ n + 1 := by
  unfold SymptomTracker.pushIf
  split
  · simp only [List.length_append, List.length_singleton]
    omega
  · omega

/-- The fever flag is in the result exactly when the fever test of line 54 holds. -/
theorem fever_mem_iff (parseFloat : String → Option ℚ) (symptoms : SymptomTracker.Symptoms) :
    "High fever (101°F+)" ∈ SymptomTracker.checkForRedFlags parseFloat symptoms ↔
      SymptomTracker.jsGe (parseFloat symptoms.temperature) 101 = true := by
  simp only [SymptomTracker.checkForRedFlags, SymptomTracker.pushIf]
  split_ifs <;> simp_all

/-- The result is empty exactly when none of the six tests holds. -/
theorem checkForRedFlags_eq_nil_iff (parseFloat : String → Option ℚ)
    (symptoms : SymptomTracker.Symptoms) :
    SymptomTracker.checkForRedFlags parseFloat symptoms = [] ↔
      symptoms.painLevel < 8 ∧
      SymptomTracker.jsGe (parseFloat symptoms.temperature) 101 = false ∧
      symptoms.woundCondition ≠ "poor" ∧
      symptoms.discharge = false ∧
      symptoms.shortnessOfBreath = false ∧
      ¬ (symptoms.redness = true ∧ symptoms.swelling = true) := by
  simp only [SymptomTracker.checkForRedFlags, SymptomTracker.pushIf]
  split_ifs <;> simp_all

/-- C16: `checkForRedFlags` reports `High fever (101°F+)` exactly when the text of the
temperature field parses to a number that is at least 101; a text that parses to `NaN`
never raises the flag, and so, `parseFloat('')` being `NaN`, a blank field never does. -/
theorem C16_fever_flag (parseFloat : String → Option ℚ) (symptoms : SymptomTracker.Symptoms) :
    ("High fever (101°F+)" ∈ SymptomTracker.checkForRedFlags parseFloat symptoms ↔
      ∃ t, parseFloat symptoms.temperature = some t ∧ t ≥ 101) ∧
    (parseFloat symptoms.temperature = none →
      "High fever (101°F+)" ∉ SymptomTracker.checkForRedFlags parseFloat symptoms) ∧
    (parseFloat "" = none → symptoms.temperature = "" →
      "High fever (101°F+)" ∉ SymptomTracker.checkForRedFlags parseFloat symptoms) := by
  have hiff := (fever_mem_iff parseFloat symptoms).trans (jsGe_eq_true_iff _ 101)
  refine ⟨hiff, ?_, ?_⟩
  · intro hnan hmem
    obtain ⟨t, ht, _⟩ := hiff.mp hmem
    rw [hnan] at ht
    cases ht
  · intro hblank htext hmem
    obtain ⟨t, ht, _⟩ := hiff.mp hmem
    rw [htext, hblank] at ht
    cases ht

/-- C16 (witness): a temperature of 101.5 raises the fever flag, the blank form does not. -/
theorem C16_fever_flag_witness :
    "High fever (101°F+)" ∈ SymptomTracker.checkForRedFlags parseFloatSample feverSymptoms ∧
    "High fever (101°F+)" ∉ SymptomTracker.checkForRedFlags parseFloatSample blankSymptoms :=
  ⟨(C16_fever_flag parseFloatSample feverSymptoms).1.mpr
      ⟨203 / 2, by simp [parseFloatSample, feverSymptoms, blankSymptoms], by norm_num⟩,
    (C16_fever_flag parseFloatSample blankSymptoms).2.2
      (by simp [parseFloatSample]) rfl⟩

/-- C17: `checkForRedFlags` returns the empty list exactly when `painLevel < 8`, the
temperature does not parse to a number of at least 101, `woundCondition` is not `poor`,
`discharge` and `shortnessOfBreath` are false, and `redness` and `swelling` are not both
true. For a temperature field that is blank or holds a number, as a number input does,
the temperature condition is: the field is blank or its number is below 101. The redness
and swelling flag is raised only when both hold, and neither alone changes the result.
The result has at most 6 entries. -/
theorem C17_no_red_flags (parseFloat : String → Option ℚ) (symptoms : SymptomTracker.Symptoms) :
    (SymptomTracker.checkForRedFlags parseFloat symptoms = [] ↔
      symptoms.painLevel < 8 ∧
      (¬ ∃ t, parseFloat symptoms.temperature = some t ∧ t ≥ 101) ∧
      symptoms.woundCondition ≠ "poor" ∧
      symptoms.discharge = false ∧
      symptoms.shortnessOfBreath = false ∧
      ¬ (symptoms.redness = true ∧ symptoms.swelling = true)) ∧
    (parseFloat "" = none →
      (symptoms.temperature = "" ∨ ∃ t, parseFloat symptoms.temperature = some t) →
      (SymptomTracker.checkForRedFlags parseFloat symptoms = [] ↔
        symptoms.painLevel < 8 ∧
        (symptoms.temperature = "" ∨
          ∃ t, parseFloat symptoms.temperature = some t ∧ t < 101) ∧
        symptoms.woundCondition ≠ "poor" ∧
        symptoms.discharge = false ∧
        symptoms.shortnessOfBreath = false ∧
        ¬ (symptoms.redness = true ∧ symptoms.swelling = true))) ∧
    ("Significant redness and swelling" ∈ SymptomTracker.checkForRedFlags parseFloat symptoms ↔
      symptoms.redness = true ∧ symptoms.swelling = true) ∧
    (SymptomTracker.checkForRedFlags parseFloat
        { symptoms with redness := true, swelling := false } =
      SymptomTracker.checkForRedFlags parseFloat
        { symptoms with redness := false, swelling := false }) ∧
    (SymptomTracker.checkForRedFlags parseFloat
        { symptoms with redness := false, swelling := true } =
      SymptomTracker.checkForRedFlags parseFloat
        { symptoms with redness := false, swelling := false }) ∧
    (SymptomTracker.checkForRedFlags parseFloat symptoms).length ≤ 6 := by
  have hnil := checkForRedFlags_eq_nil_iff parseFloat symptoms
  have hfever : SymptomTracker.jsGe (parseFloat symptoms.temperature) 101 = false ↔
      ¬ ∃ t, parseFloat symptoms.temperature = some t ∧ t ≥ 101 := by
    rw [← jsGe_eq_true_iff]
    simp
  refine ⟨?_, ?_, ?_, ?_, ?_, ?_⟩
  · rw [hnil, hfever]
  · intro hblank hfield
    rw [hnil, hfever]
    have hcond : (¬ ∃ t, parseFloat symptoms.temperature = some t ∧ t ≥ 101) ↔
        (symptoms.temperature = "" ∨
          ∃ t, parseFloat symptoms.temperature = some t ∧ t < 101) := by
      constructor
      · intro hno
        rcases hfield with hempty | ⟨t, ht⟩
        · exact Or.inl hempty
        · refine Or.inr ⟨t, ht, ?_⟩
          by_contra hge
          exact hno ⟨t, ht, not_lt.mp hge⟩
      · rintro (hempty | ⟨t, ht, hlt⟩) ⟨u, hu, hge⟩
        · rw [hempty, hblank] at hu
          cases hu
        · rw [ht] at hu
          cases hu
          exact absurd hge (not_le.mpr hlt)
    rw [hcond]
  · simp only [SymptomTracker.checkForRedFlags, SymptomTracker.pushIf]
    split_ifs <;> simp_all
  · simp [SymptomTracker.checkForRedFlags, SymptomTracker.pushIf]
  · simp [SymptomTracker.checkForRedFlags, SymptomTracker.pushIf]
  · simp only [SymptomTracker.checkForRedFlags]
    exact pushIf_length_le (pushIf_length_le (pushIf_length_le (pushIf_length_le
      (pushIf_length_le (pushIf_length_le (Nat.le_refl 0))))))

/-- C17 (witness): the blank form raises no flag, and its temperature field is blank. -/
theorem C17_no_red_flags_witness :
    SymptomTracker.checkForRedFlags parseFloatSample blankSymptoms = [] :=
  ((C17_no_red_flags parseFloatSample blankSymptoms).2.1
      (by simp [parseFloatSample]) (Or.inl rfl)).mpr
    ⟨by decide, Or.inl rfl, by decide, rfl, rfl, by decide⟩

/-! ## Risk metric cards -/

/-- A sort by `f b - f a` leaves the list in non-increasing order of `f`. -/
theorem jsSort_pairwise_desc {α : Type} (f : α → ℚ) (l : List α) :
    (jsSort (fun a b => f b - f a) l).Pairwise (fun a b => f b ≤ f a) := by
  have key : ∀ a b : α, f b - f a ≤ 0 ↔ f b ≤ f a := fun a b => sub_nonpos
  have total : IsTotal α (fun a b => f b - f a ≤ 0) :=
    ⟨fun a b => by
      simp only [key]
      exact le_total _ _⟩
  have trans : IsTrans α (fun a b => f b - f a ≤ 0) :=
    ⟨fun a b c hab hbc => by
      simp only [key] at *
      exact le_trans hbc hab⟩
  have h := List.sorted_insertionSort (fun a b => f b - f a ≤ 0) l
  rw [← jsSort_eq_insertionSort] at h
  exact List.Pairwise.imp (fun {a b} hab => (key a b).mp hab) h

/-- The keys of `entries` are the known keys that have a value, in the order of `keys`. -/
theorem entries_keys (assessment : RiskAssessmentReport.Assessment) :
    (RiskAssessmentReport.entries assessment).map (fun e => e.key) =
      RiskAssessmentReport.keys.filter fun k => (assessment.risks k).isSome := by
  simp only [RiskAssessmentReport.entries, RiskAssessmentReport.keys, List.foldl,
    RiskAssessmentReport.addEntry]
  cases h1 : assessment.risks "aki" <;> cases h2 : assessment.risks "cardiovascular" <;>
    cases h3 : assessment.risks "transfusion" <;> cases h4 : assessment.risks "mortality" <;>
    simp [List.filter_cons, h1, h2, h3, h4]

/-- Every entry carries the value that `risks` holds for its key. -/
theorem entries_value (assessment : RiskAssessmentReport.Assessment) :
    ∀ e ∈ RiskAssessmentReport.entries assessment, assessment.risks e.key = some e.value := by
  simp only [RiskAssessmentReport.entries, RiskAssessmentReport.keys, List.foldl,
    RiskAssessmentReport.addEntry]
  cases h1 : assessment.risks "aki" <;> cases h2 : assessment.risks "cardiovascular" <;>
    cases h3 : assessment.risks "transfusion" <;> cases h4 : assessment.risks "mortality" <;>
    simp [h1, h2, h3, h4]

/-- C18: the risk metric cards are the metrics among aki, cardiovascular, transfusion and
mortality that have a value (neither `undefined` nor `null`; 0 counts as a value), each
exactly once, every card showing the value of its metric, in non-increasing order of
value. -/
theorem C18_risk_cards (assessment : RiskAssessmentReport.Assessment) :
    ((RiskAssessmentReport.cards assessment).map fun e => e.key).Perm
      (RiskAssessmentReport.keys.filter fun k => (assessment.risks k).isSome) ∧
    ((RiskAssessmentReport.cards assessment).map fun e => e.key).Nodup ∧
    (∀ e ∈ RiskAssessmentReport.cards assessment, assessment.risks e.key = some e.value) ∧
    (∀ k ∈ RiskAssessmentReport.keys, assessment.risks k = some 0 →
      k ∈ (RiskAssessmentReport.cards assessment).map fun e => e.key) ∧
    (RiskAssessmentReport.cards assessment).Pairwise (fun a b => a.value ≥ b.value) := by
  have hperm : (RiskAssessmentReport.cards assessment).Perm
      (RiskAssessmentReport.entries assessment) :=
    jsSort_perm _ _
  have hkeys : ((RiskAssessmentReport.cards assessment).map fun e => e.key).Perm
      (RiskAssessmentReport.keys.filter fun k => (assessment.risks k).isSome) := by
    rw [← entries_keys]
    exact hperm.map _
  have hnodup : (RiskAssessmentReport.keys.filter fun k => (assessment.risks k).isSome).Nodup :=
    List.Nodup.filter _ (by decide)
  refine ⟨hkeys, hkeys.nodup_iff.mpr hnodup, ?_, ?_, ?_⟩
  · intro e he
    exact entries_value assessment e (hperm.mem_iff.mp he)
  · intro k hk hzero
    apply hkeys.mem_iff.mpr
    exact List.mem_filter.mpr ⟨hk, by simp [hzero]⟩
  · exact jsSort_pairwise_desc (fun e : RiskAssessmentReport.Entry => e.value)
      (RiskAssessmentReport.entries assessment)

/-- The cards of an assessment with values 0, 40 and 15 and no mortality value. -/
theorem cards_sampleAssessment :
    (RiskAssessmentReport.cards sampleAssessment).map (fun e => (e.key, e.value)) =
      [("cardiovascular", 40), ("transfusion", 15), ("aki", 0)] := by
  simp [RiskAssessmentReport.cards, RiskAssessmentReport.entries, RiskAssessmentReport.keys,
    RiskAssessmentReport.addEntry, sampleAssessment, jsSort, orderedInsert,
    RiskAssessmentReport.compare]
  norm_num

/-! ## Blood report upload -/

/-- The effects of `handleFileSelect`, by the outcome of its two checks. -/
theorem handleFileSelect_cases (f : BloodReportUploader.UploadFile) :
    (f.type ∉ BloodReportUploader.allowedTypes ∧
      BloodReportUploader.handleFileSelect f =
        [BloodReportUploader.Effect.setError none,
          BloodReportUploader.Effect.clearExtractedValues,
          BloodReportUploader.Effect.setError (some "Please upload a PDF, JPG, or PNG file")]) ∨
    (f.type ∈ BloodReportUploader.allowedTypes ∧ f.size > 10 * 1024 * 1024 ∧
      BloodReportUploader.handleFileSelect f =
        [BloodReportUploader.Effect.setError none,
          BloodReportUploader.Effect.clearExtractedValues,
          BloodReportUploader.Effect.setError (some "File size must be less than 10MB")]) ∨
    (f.type ∈ BloodReportUploader.allowedTypes ∧ f.size ≤ 10 * 1024 * 1024 ∧
      BloodReportUploader.handleFileSelect f =
        [BloodReportUploader.Effect.setError none,
          BloodReportUploader.Effect.clearExtractedValues,
          BloodReportUploader.Effect.setFile f,
          BloodReportUploader.Effect.uploadAndExtract f]) := by
  unfold BloodReportUploader.handleFileSelect
  by_cases ht : f.type ∈ BloodReportUploader.allowedTypes
  · have hc : BloodReportUploader.allowedTypes.contains f.type = true := by
      simpa using ht
    by_cases hs : f.size > 10 * 1024 * 1024
    · right; left
      simp [ht, hc, hs]
    · right; right
      simp [ht, hc, hs]
      omega
  · have hc : BloodReportUploader.allowedTypes.contains f.type = false := by
      simpa using ht
    left
    simp [ht, hc]

/-- C19 (counterexample): a PDF of exactly 10 MB (10 * 1024 * 1024 bytes), whose size is not
less than 10 MB, is stored and handed to the upload. -/
theorem C19_counterexample :
    tenMegabytePdf.size = 10 * 1024 * 1024 ∧
    ¬ tenMegabytePdf.size < 10 * 1024 * 1024 ∧
    BloodReportUploader.handleFileSelect tenMegabytePdf =
      [BloodReportUploader.Effect.setError none,
        BloodReportUploader.Effect.clearExtractedValues,
        BloodReportUploader.Effect.setFile tenMegabytePdf,
        BloodReportUploader.Effect.uploadAndExtract tenMegabytePdf] ∧
    BloodReportUploader.accepts tenMegabytePdf = true := by
  decide

/-- C19 (amended): `handleFileSelect` accepts a file exactly when its type is one of
application/pdf, image/jpeg, image/jpg, image/png and its size is at most
10 * 1024 * 1024 bytes; a rejected file is neither stored nor uploaded and leaves an error
message; a file of another type gets the file-type error whatever its size, and a file of
an allowed type above the limit gets the size error. -/
theorem C19_handleFileSelect_accepts (f : BloodReportUploader.UploadFile) :
    (BloodReportUploader.accepts f = true ↔
      f.type ∈ ["application/pdf", "image/jpeg", "image/jpg", "image/png"] ∧
        f.size ≤ 10 * 1024 * 1024) ∧
    (BloodReportUploader.accepts f = false →
      (∀ g, BloodReportUploader.Effect.setFile g ∉ BloodReportUploader.handleFileSelect f) ∧
      (∀ g, BloodReportUploader.Effect.uploadAndExtract g ∉
        BloodReportUploader.handleFileSelect f) ∧
      BloodReportUploader.errorOf (BloodReportUploader.handleFileSelect f) ≠ none) ∧
    (f.type ∉ ["application/pdf", "image/jpeg", "image/jpg", "image/png"] →
      BloodReportUploader.errorOf (BloodReportUploader.handleFileSelect f) =
        some "Please upload a PDF, JPG, or PNG file") ∧
    (f.type ∈ ["application/pdf", "image/jpeg", "image/jpg", "image/png"] →
      f.size > 10 * 1024 * 1024 →
      BloodReportUploader.errorOf (BloodReportUploader.handleFileSelect f) =
        some "File size must be less than 10MB") := by
  have hallowed : BloodReportUploader.allowedTypes =
      ["application/pdf", "image/jpeg", "image/jpg", "image/png"] := rfl
  rw [← hallowed]
  unfold BloodReportUploader.accepts
  rcases handleFileSelect_cases f with ⟨ht, hfx⟩ | ⟨ht, hs, hfx⟩ | ⟨ht, hs, hfx⟩
  · rw [hfx]
    refine ⟨?_, ?_, ?_, ?_⟩
    · simp [ht]
    · intro _
      simp [BloodReportUploader.errorOf]
    · intro _
      simp [BloodReportUploader.errorOf]
    · intro h
      exact absurd h ht
  · rw [hfx]
    refine ⟨?_, ?_, ?_, ?_⟩
    · simp [ht]
      omega
    · intro _
      simp [BloodReportUploader.errorOf]
    · intro h
      exact absurd ht h
    · intro _ _
      simp [BloodReportUploader.errorOf]
  · rw [hfx]
    refine ⟨?_, ?_, ?_, ?_⟩
    · simp [ht, hs]
    · intro h
      simp at h
    · intro h
      exact absurd ht h
    · intro _ h
      omega

/-- A text file above the limit fails both checks and gets the file-type error. -/
theorem handleFileSelect_largeTextFile :
    BloodReportUploader.accepts largeTextFile = false ∧
    BloodReportUploader.errorOf (BloodReportUploader.handleFileSelect largeTextFile) =
      some "Please upload a PDF, JPG, or PNG file" := by
  decide

/-! ## Override and beds under maintenance -/

/-- The allocator refuses every request for a bed under maintenance. -/
theorem allocate_maintenance (σ : Allocator.Engine) (patient_id bed_id : Nat) (b : Bed)
    (override : Bool)
    (hfind : (σ.beds.find? fun c => decide (c.bed_id = bed_id)) = some b)
    (hm : b.status = "Maintenance") :
    ∃ e, Allocator.allocate σ patient_id bed_id override = Except.error e := by
  unfold Allocator.allocate
  cases hp : σ.waitlist.find? fun p => decide (p.patient_id = patient_id) with
  | none => exact ⟨_, rfl⟩
  | some p =>
    simp only [hfind, hm, if_true]
    exact ⟨_, rfl⟩

/-- The text of an allocator error is never the success message of the dashboard. -/
theorem error_text_ne_success (e : Allocator.AllocateError) :
    e.text ≠ "Bed allocated successfully!" ∧ e.text ≠ "" := by
  cases e <;> exact ⟨by decide, by decide⟩

/-- C21: when the targeted bed has status Maintenance, `allocate` with `override = true`
fails (as it does without override), and `allocateBed` called with the override flag against
this allocator gets a response that is not ok: it writes no audit entry, shows no success
message and shows the error. -/
theorem C21_override_never_allocates_maintenance_bed (σ : Allocator.Engine)
    (patient_id bed_id : Nat) (b : Bed)
    (hfind : (σ.beds.find? fun c => decide (c.bed_id = bed_id)) = some b)
    (hm : b.status = "Maintenance") :
    (∃ e, Allocator.allocate σ patient_id bed_id true = Except.error e) ∧
    (∀ override, ∃ e, Allocator.allocate σ patient_id bed_id override = Except.error e) ∧
    (Allocator.respond σ
      { patient_id := patient_id, bed_id := bed_id, override := true }).succeeded = false ∧
    ICUDashboardNew.auditWritesOf
      (ICUDashboardNew.allocateBed (Allocator.respond σ) patient_id bed_id true) = [] ∧
    "Bed allocated successfully!" ∉ ICUDashboardNew.alertsOf
      (ICUDashboardNew.allocateBed (Allocator.respond σ) patient_id bed_id true) ∧
    (ICUDashboardNew.alertsOf
      (ICUDashboardNew.allocateBed (Allocator.respond σ) patient_id bed_id true)).length = 1 := by
  obtain ⟨e, he⟩ := allocate_maintenance σ patient_id bed_id b true hfind hm
  have hresp : Allocator.respond σ
      { patient_id := patient_id, bed_id := bed_id, override := true } =
      ICUDashboardNew.FetchOutcome.response false
        (ICUDashboardNew.Body.value { error := some e.text, bed_info := none }) := by
    simp only [Allocator.respond, he]
  have hfx := allocateBed_not_ok (Allocator.respond σ) patient_id bed_id true _ hresp
  have htext := error_text_ne_success e
  refine ⟨⟨e, he⟩, fun o => allocate_maintenance σ patient_id bed_id b o hfind hm, ?_, ?_, ?_, ?_⟩
  · rw [hresp]
    rfl
  · rw [hfx]
    rfl
  · rw [hfx]
    simp [ICUDashboardNew.alertsOf, jsOrString, htext.2]
    exact fun h => htext.1 h.symm
  · rw [hfx]
    simp [ICUDashboardNew.alertsOf]

/-- C21 (witness): bed 3 of the unit is under maintenance; the override request for patient 7
is refused with `BedUnavailable`. -/
theorem C21_override_never_allocates_maintenance_bed_witness :
    Allocator.allocate maintenanceUnit 7 3 true =
      Except.error Allocator.AllocateError.BedUnavailable ∧
    ICUDashboardNew.alertsOf
      (ICUDashboardNew.allocateBed (Allocator.respond maintenanceUnit) 7 3 true) =
      ["BedUnavailable"] ∧
    ∃ e, Allocator.allocate maintenanceUnit 7 3 true = Except.error e :=
  ⟨rfl, by decide,
    (C21_override_never_allocates_maintenance_bed maintenanceUnit 7 3
      { bed_id := 3, bed_number := "ICU-3", bed_type := "Cardiac", status := "Maintenance",
        has_ventilator := true, has_dialysis := true, has_ecmo := true }
      (by decide) rfl).1⟩

/-! ## Recovery plan -/

/-- C22 (the code at the failing input): `toggleMilestone` never changes the `goals` of an
entry, so the goals that the weekly view renders are the same before and after; for a week
entry the toggled copy of the goals is stored under `milestones` instead. On week 1 with
goal 4 in progress, `toggleMilestone(4)` leaves goal 4 in progress. -/
theorem C22_weekly_goals_unchanged (milestoneId : Nat) (prev : List RecoveryPlan.Entry) :
    (RecoveryPlan.toggleMilestone milestoneId prev).map (fun e => e.goals) =
      prev.map (fun e => e.goals) ∧
    (RecoveryPlan.toggleMilestone milestoneId prev).map RecoveryPlan.weeklyViewGoals =
      prev.map RecoveryPlan.weeklyViewGoals ∧
    (∀ (e : RecoveryPlan.Entry) (gs : List RecoveryPlan.Item),
      e.milestones = none → e.goals = some gs →
      (RecoveryPlan.toggleEntry milestoneId e).goals = some gs ∧
      (RecoveryPlan.toggleEntry milestoneId e).milestones =
        some (gs.map (RecoveryPlan.toggleStatus milestoneId))) ∧
    (RecoveryPlan.toggleMilestone 4 [weekOne]).map RecoveryPlan.weeklyViewGoals =
      [[{ id := 4, category := none, task := none, completed := none, priority := none,
          goal := some "Wound healing well", status := some "in-progress" }]] := by
  refine ⟨?_, ?_, ?_, ?_⟩
  · simp [RecoveryPlan.toggleMilestone, RecoveryPlan.toggleEntry, Function.comp_def]
  · simp [RecoveryPlan.toggleMilestone, RecoveryPlan.toggleEntry, Function.comp_def,
      RecoveryPlan.weeklyViewGoals]
  · intro e gs hms hgs
    simp [RecoveryPlan.toggleEntry, hms, hgs]
  · decide

/-- Toggling a milestone that has a `completed` flag flips the flag when the id matches and
returns the milestone as it is otherwise. -/
theorem toggleCompleted_eq (milestoneId : Nat) (m : RecoveryPlan.Item) (h : m.completed ≠ none) :
    RecoveryPlan.toggleCompleted milestoneId m =
      if m.id = milestoneId then { m with completed := m.completed.map not } else m := by
  unfold RecoveryPlan.toggleCompleted
  cases hc : m.completed with
  | none => exact absurd hc h
  | some b => cases b <;> simp [RecoveryPlan.jsNot]

/-- Toggling twice returns a milestone that has a `completed` flag. -/
theorem toggleCompleted_twice (milestoneId : Nat) (m : RecoveryPlan.Item)
    (h : m.completed ≠ none) :
    RecoveryPlan.toggleCompleted milestoneId (RecoveryPlan.toggleCompleted milestoneId m) = m := by
  obtain ⟨id, category, task, completed, priority, goal, status⟩ := m
  cases completed with
  | none => exact absurd rfl h
  | some b =>
    by_cases hid : id = milestoneId
    · cases b <;> simp [RecoveryPlan.toggleCompleted, RecoveryPlan.jsNot, hid]
    · simp [RecoveryPlan.toggleCompleted, hid]

/-- C23: on daily milestones (every entry has a `milestones` list whose elements carry a
`completed` flag), `toggleMilestone(id)` returns the same entries in the same order, each
with the same fields and the same milestones in the same order, except that the
`completed` flag of every milestone whose id equals `id` is negated; applying it twice
returns the original milestones. -/
theorem C23_toggle_daily_milestones (milestoneId : Nat) (prev : List RecoveryPlan.Entry)
    (h : ∀ e ∈ prev, ∃ ms, e.milestones = some ms ∧ ∀ m ∈ ms, m.completed ≠ none) :
    RecoveryPlan.toggleMilestone milestoneId prev =
      prev.map (fun e =>
        { e with
          milestones := e.milestones.map fun ms =>
            ms.map fun m =>
              if m.id = milestoneId then { m with completed := m.completed.map not } else m }) ∧
    (RecoveryPlan.toggleMilestone milestoneId prev).length = prev.length ∧
    RecoveryPlan.toggleMilestone milestoneId
      (RecoveryPlan.toggleMilestone milestoneId prev) = prev := by
  refine ⟨?_, ?_, ?_⟩
  · unfold RecoveryPlan.toggleMilestone
    apply List.map_congr_left
    intro e he
    obtain ⟨ms, hms, hflags⟩ := h e he
    simp only [RecoveryPlan.toggleEntry, hms, Option.map_some']
    congr 2
    apply List.map_congr_left
    intro m hm
    exact toggleCompleted_eq milestoneId m (hflags m hm)
  · simp [RecoveryPlan.toggleMilestone]
  · unfold RecoveryPlan.toggleMilestone
    rw [List.map_map]
    conv_rhs => rw [← List.map_id prev]
    apply List.map_congr_left
    intro e he
    obtain ⟨ms, hms, hflags⟩ := h e he
    obtain ⟨day, week, phase, milestones, goals⟩ := e
    simp only at hms
    subst hms
    simp only [Function.comp, RecoveryPlan.toggleEntry, List.map_map, id]
    congr 2
    conv_rhs => rw [← List.map_id ms]
    apply List.map_congr_left
    intro m hm
    exact toggleCompleted_twice milestoneId m (hflags m hm)

/-- C23 (witness): day 2 with milestone 6 done and milestone 7 open; toggling 7 marks it done
and leaves 6 as it is. -/
theorem C23_toggle_daily_milestones_witness :
    (RecoveryPlan.toggleMilestone 7 [dayTwo]).map
        (fun e => e.milestones.map fun ms => ms.map fun m => (m.id, m.completed)) =
      [some [(6, some true), (7, some true)]] ∧
    RecoveryPlan.toggleMilestone 7 (RecoveryPlan.toggleMilestone 7 [dayTwo]) = [dayTwo] :=
  ⟨by decide,
    (C23_toggle_daily_milestones 7 [dayTwo] (by
      intro e he
      rw [List.mem_singleton] at he
      subst he
      exact ⟨_, rfl, by decide⟩)).2.2⟩

/-! ## Nearby centers -/

/-- A sort by `f a - f b` leaves the list in non-decreasing order of `f`. -/
theorem jsSort_pairwise_asc {α : Type} (f : α → ℚ) (l : List α) :
    (jsSort (fun a b => f a - f b) l).Pairwise (fun a b => f a ≤ f b) := by
  have key : ∀ a b : α, f a - f b ≤ 0 ↔ f a ≤ f b := fun a b => sub_nonpos
  have total : IsTotal α (fun a b => f a - f b ≤ 0) :=
    ⟨fun a b => by
      simp only [key]
      exact le_total _ _⟩
  have trans : IsTrans α (fun a b => f a - f b ≤ 0) :=
    ⟨fun a b c hab hbc => by
      simp only [key] at *
      exact le_trans hab hbc⟩
  have h := List.sorted_insertionSort (fun a b => f a - f b ≤ 0) l
  rw [← jsSort_eq_insertionSort] at h
  exact List.Pairwise.imp (fun {a b} hab => (key a b).mp hab) h

/-- C24: for every list of centers, filter type and search query, the list `applyFilters`
produces is a permutation of the centers that match the type filter (every center when
the filter is `all`) and, when the query is not empty, contain the lower-cased query in
their lower-cased name, address or one of their services; and it is in non-decreasing
order of distance. -/
theorem C24_applyFilters (toLowerCase : String → String)
    (centers : List NearbyRehabCenters.Center) (filterType searchQuery : String) :
    (NearbyRehabCenters.applyFilters toLowerCase centers filterType searchQuery).Perm
      (centers.filter fun center =>
        decide ((filterType = "all" ∨ center.type = filterType) ∧
          (searchQuery = "" ∨
            NearbyRehabCenters.jsIncludes (toLowerCase center.name)
              (toLowerCase searchQuery) = true ∨
            NearbyRehabCenters.jsIncludes (toLowerCase center.address)
              (toLowerCase searchQuery) = true ∨
            ∃ service ∈ center.services,
              NearbyRehabCenters.jsIncludes (toLowerCase service)
                (toLowerCase searchQuery) = true))) ∧
    (NearbyRehabCenters.applyFilters toLowerCase centers filterType searchQuery).Pairwise
      (fun a b => a.distance ≤ b.distance) := by
  constructor
  · unfold NearbyRehabCenters.applyFilters
    refine (jsSort_perm _ _).trans ?_
    apply List.Perm.of_eq
    by_cases ht : filterType = "all" <;> by_cases hq : searchQuery = "" <;>
      simp only [ht, hq, ne_eq, not_true_eq_false, not_false_eq_true, if_true, if_false,
        List.filter_filter]
    · simp
    · apply List.filter_congr
      intro center _
      rw [Bool.eq_iff_iff]
      simp [NearbyRehabCenters.matchesQuery, List.any_eq_true, or_assoc]
    · apply List.filter_congr
      intro center _
      rw [Bool.eq_iff_iff]
      simp [ht]
    · apply List.filter_congr
      intro center _
      rw [Bool.eq_iff_iff]
      simp [NearbyRehabCenters.matchesQuery, List.any_eq_true, ht, hq]
      tauto
  · exact jsSort_pairwise_asc (fun c : NearbyRehabCenters.Center => c.distance) _

/-! ## Rounding to the nearest double -/

theorem roundHalfEven_cases (x : ℚ) : roundHalfEven x = ⌊x⌋ ∨ roundHalfEven x = ⌊x⌋ + 1 := by
  unfold roundHalfEven
  split_ifs <;> simp

theorem le_roundHalfEven {x : ℚ} {z : ℤ} (h : (z : ℚ) ≤ x) : z ≤ roundHalfEven x := by
  have hz : z ≤ ⌊x⌋ := Int.le_floor.mpr h
  rcases roundHalfEven_cases x with hr | hr <;> omega

theorem roundHalfEven_le {x : ℚ} {z : ℤ} (h : x ≤ (z : ℚ)) : roundHalfEven x ≤ z := by
  rcases eq_or_lt_of_le h with heq | hlt
  · subst heq
    simp [roundHalfEven]
  · have hz : ⌊x⌋ < z := Int.floor_lt.mpr hlt
    rcases roundHalfEven_cases x with hr | hr <;> omega

theorem succ_le_roundHalfEven {x : ℚ} {z : ℤ} (h : (z : ℚ) + 1 / 2 < x) :
    z + 1 ≤ roundHalfEven x := by
  have hz : z ≤ ⌊x⌋ := Int.le_floor.mpr (by linarith)
  rcases eq_or_lt_of_le hz with heq | hlt
  · have hfrac : 1 / 2 < x - ⌊x⌋ := by
      rw [← heq]
      linarith
    have hnot : ¬ x - ⌊x⌋ < 1 / 2 := not_lt.mpr (le_of_lt hfrac)
    simp only [roundHalfEven, hnot, hfrac, if_true, if_false]
    omega
  · rcases roundHalfEven_cases x with hr | hr <;> omega

/-- For a positive `x` the rounding acts on multiples of the unit `2 ^ (e - 52)` of its
binade. -/
theorem roundDouble_of_pos {x : ℚ} (hx : 0 < x) :
    roundDouble x =
      roundHalfEven (x / 2 ^ (Int.log 2 x - 52)) * 2 ^ (Int.log 2 x - 52) := by
  simp [roundDouble, hx, ne_of_gt hx]

theorem unit_pos (e : ℤ) : (0 : ℚ) < 2 ^ (e - 52) := by positivity

theorem le_roundDouble {x : ℚ} (hx : 0 < x) {z : ℤ}
    (h : (z : ℚ) * 2 ^ (Int.log 2 x - 52) ≤ x) :
    (z : ℚ) * 2 ^ (Int.log 2 x - 52) ≤ roundDouble x := by
  rw [roundDouble_of_pos hx]
  have hu := unit_pos (Int.log 2 x)
  have hz : z ≤ roundHalfEven (x / 2 ^ (Int.log 2 x - 52)) :=
    le_roundHalfEven ((le_div_iff₀ hu).mpr h)
  have hzq : (z : ℚ) ≤ (roundHalfEven (x / 2 ^ (Int.log 2 x - 52)) : ℚ) := by exact_mod_cast hz
  exact mul_le_mul_of_nonneg_right hzq (le_of_lt hu)

theorem roundDouble_le {x : ℚ} (hx : 0 < x) {z : ℤ}
    (h : x ≤ (z : ℚ) * 2 ^ (Int.log 2 x - 52)) :
    roundDouble x ≤ (z : ℚ) * 2 ^ (Int.log 2 x - 52) := by
  rw [roundDouble_of_pos hx]
  have hu := unit_pos (Int.log 2 x)
  have hz : roundHalfEven (x / 2 ^ (Int.log 2 x - 52)) ≤ z :=
    roundHalfEven_le ((div_le_iff₀ hu).mpr h)
  have hzq : (roundHalfEven (x / 2 ^ (Int.log 2 x - 52)) : ℚ) ≤ (z : ℚ) := by exact_mod_cast hz
  exact mul_le_mul_of_nonneg_right hzq (le_of_lt hu)

theorem succ_le_roundDouble {x : ℚ} (hx : 0 < x) {z : ℤ}
    (h : ((z : ℚ) + 1 / 2) * 2 ^ (Int.log 2 x - 52) < x) :
    ((z : ℚ) + 1) * 2 ^ (Int.log 2 x - 52) ≤ roundDouble x := by
  rw [roundDouble_of_pos hx]
  have hu := unit_pos (Int.log 2 x)
  have hz : z + 1 ≤ roundHalfEven (x / 2 ^ (Int.log 2 x - 52)) :=
    succ_le_roundHalfEven ((lt_div_iff₀ hu).mpr h)
  have hzq : ((z : ℚ) + 1) ≤ (roundHalfEven (x / 2 ^ (Int.log 2 x - 52)) : ℚ) := by exact_mod_cast hz
  exact mul_le_mul_of_nonneg_right hzq (le_of_lt hu)


theorem pow52_mul_unit (e : ℤ) :
    (((2 : ℤ) ^ 52 : ℤ) : ℚ) * 2 ^ (e - 52) = 2 ^ e := by
  rw [zpow_sub₀ (by norm_num : (2 : ℚ) ≠ 0)]
  norm_num
  ring

theorem pow53_mul_unit (e : ℤ) :
    (((2 : ℤ) ^ 53 : ℤ) : ℚ) * 2 ^ (e - 52) = 2 ^ (e + 1) := by
  rw [zpow_sub₀ (by norm_num : (2 : ℚ) ≠ 0), zpow_add₀ (by norm_num : (2 : ℚ) ≠ 0)]
  norm_num
  ring

theorem two_pow_le_roundDouble {x : ℚ} (hx : 0 < x) :
    (2 : ℚ) ^ Int.log 2 x ≤ roundDouble x := by
  have hle : (2 : ℚ) ^ Int.log 2 x ≤ x := by
    exact_mod_cast Int.zpow_log_le_self (b := 2) (by norm_num) hx
  have h := @le_roundDouble x hx (2 ^ 52) (by
    rw [pow52_mul_unit]
    exact hle)
  rw [pow52_mul_unit] at h
  exact h

theorem roundDouble_le_two_pow {x : ℚ} (hx : 0 < x) :
    roundDouble x ≤ (2 : ℚ) ^ (Int.log 2 x + 1) := by
  have hlt : x < (2 : ℚ) ^ (Int.log 2 x + 1) := by
    exact_mod_cast Int.lt_zpow_succ_log_self (b := 2) (by norm_num) x
  have h := @roundDouble_le x hx (2 ^ 53) (by
    rw [pow53_mul_unit]
    exact le_of_lt hlt)
  rw [pow53_mul_unit] at h
  exact h

theorem roundDouble_nonneg {x : ℚ} (hx : 0 ≤ x) : 0 ≤ roundDouble x := by
  rcases eq_or_lt_of_le hx with h0 | hpos
  · rw [← h0]
    simp [roundDouble]
  · exact le_trans (le_of_lt (by positivity)) (two_pow_le_roundDouble hpos)

theorem roundDouble_le_one {x : ℚ} (hx : 0 ≤ x) (h1 : x ≤ 1) : roundDouble x ≤ 1 := by
  rcases eq_or_lt_of_le hx with h0 | hpos
  · rw [← h0]
    simp [roundDouble]
  · have he : Int.log 2 x ≤ 0 := by
      have := Int.log_mono_right (b := 2) hpos h1
      simpa using this
    rcases eq_or_lt_of_le he with hz | hneg
    · have h := @roundDouble_le x hpos (2 ^ 52) (by
        rw [hz]
        norm_num
        exact h1)
      rw [hz] at h
      norm_num at h
      exact h
    · have hup := roundDouble_le_two_pow hpos
      have hle : (2 : ℚ) ^ (Int.log 2 x + 1) ≤ 2 ^ (0 : ℤ) :=
        zpow_le_zpow_right₀ (by norm_num) (by omega)
      simpa using le_trans hup hle

theorem roundDouble_le_hundred {y : ℚ} (hy : 0 ≤ y) (h : y ≤ 100) : roundDouble y ≤ 100 := by
  rcases eq_or_lt_of_le hy with h0 | hpos
  · rw [← h0]
    simp [roundDouble]
  · have he : Int.log 2 y < 7 := by
      apply (Int.lt_zpow_iff_log_lt (b := 2) (by norm_num) hpos).mp
      norm_num
      linarith
    rcases eq_or_lt_of_le (Int.lt_add_one_iff.mp (by omega : Int.log 2 y < 6 + 1)) with h6 | hlt
    · have hr := @roundDouble_le y hpos (100 * 2 ^ 46) (by
        rw [h6]
        norm_num
        exact h)
      rw [h6] at hr
      norm_num at hr
      exact hr
    · have hup := roundDouble_le_two_pow hpos
      have hle : (2 : ℚ) ^ (Int.log 2 y + 1) ≤ 2 ^ (6 : ℤ) :=
        zpow_le_zpow_right₀ (by norm_num) (by omega)
      have h64 : (2 : ℚ) ^ (6 : ℤ) ≤ 100 := by norm_num
      exact le_trans hup (le_trans hle h64)

theorem succ_one_le_roundDouble {x : ℚ} (h : 1 + 1 / 2 ^ 53 < x) :
    1 + 1 / 2 ^ 52 ≤ roundDouble x := by
  have hpos : 0 < x := by
    have : (0 : ℚ) < 1 + 1 / 2 ^ 53 := by positivity
    linarith
  have h1 : (1 : ℚ) ≤ x := by
    have : (0 : ℚ) < 1 / 2 ^ 53 := by positivity
    linarith
  have he : 0 ≤ Int.log 2 x := by
    apply (Int.zpow_le_iff_le_log (b := 2) (by norm_num) hpos).mp
    simpa using h1
  rcases eq_or_lt_of_le he with h0 | hgt
  · have hr := @succ_le_roundDouble x hpos (2 ^ 52) (by
      rw [← h0]
      norm_num
      norm_num at h
      linarith)
    rw [← h0] at hr
    norm_num at hr
    norm_num
    linarith
  · have hlow := two_pow_le_roundDouble hpos
    have hle : (2 : ℚ) ^ (1 : ℤ) ≤ 2 ^ Int.log 2 x :=
      zpow_le_zpow_right₀ (by norm_num) (by omega)
    have h2 : (1 : ℚ) + 1 / 2 ^ 52 ≤ 2 ^ (1 : ℤ) := by norm_num
    exact le_trans h2 (le_trans hle hlow)

theorem hundred_lt_roundDouble {y : ℚ} (h : 100 * (1 + 1 / 2 ^ 52) ≤ y) :
    100 < roundDouble y := by
  have h100 : (100 : ℚ) < y := by
    have : (0 : ℚ) < 1 / 2 ^ 52 := by positivity
    linarith
  have hpos : 0 < y := by linarith
  have he : 6 ≤ Int.log 2 y := by
    apply (Int.zpow_le_iff_le_log (b := 2) (by norm_num) hpos).mp
    norm_num
    linarith
  rcases eq_or_lt_of_le he with h6 | hgt
  · have hr := @le_roundDouble y hpos (100 * 2 ^ 46 + 1) (by
      rw [← h6]
      norm_num
      norm_num at h
      linarith)
    rw [← h6] at hr
    norm_num at hr
    linarith
  · have hlow := two_pow_le_roundDouble hpos
    have hle : (2 : ℚ) ^ (7 : ℤ) ≤ 2 ^ Int.log 2 y :=
      zpow_le_zpow_right₀ (by norm_num) (by omega)
    have h2 : (100 : ℚ) < 2 ^ (7 : ℤ) := by norm_num
    exact lt_of_lt_of_le h2 (le_trans hle hlow)


theorem roundHalfEven_le_of_lt_half {x : ℚ} {z : ℤ} (h : x < (z : ℚ) + 1 / 2) :
    roundHalfEven x ≤ z := by
  have hz : ⌊x⌋ ≤ z := by
    have h1 : x < ((z + 1 : ℤ) : ℚ) := by
      push_cast
      linarith
    have := Int.floor_lt.mpr h1
    omega
  rcases eq_or_lt_of_le hz with heq | hlt
  · have hfrac : x - ⌊x⌋ < 1 / 2 := by
      rw [heq]
      linarith
    simp only [roundHalfEven, hfrac, if_true]
    omega
  · rcases roundHalfEven_cases x with hr | hr <;> omega

theorem roundHalfEven_eq_of_near {x : ℚ} {z : ℤ} (hlo : (z : ℚ) - 1 / 2 < x)
    (hhi : x < (z : ℚ) + 1 / 2) : roundHalfEven x = z := by
  apply le_antisymm (roundHalfEven_le_of_lt_half hhi)
  have h := @succ_le_roundHalfEven x (z - 1) (by
    push_cast
    linarith)
  omega

theorem log_eq_of_bounds {x : ℚ} {e : ℤ} (hlo : (2 : ℚ) ^ e ≤ x) (hhi : x < (2 : ℚ) ^ (e + 1)) :
    Int.log 2 x = e := by
  have hpos : 0 < x := lt_of_lt_of_le (by positivity) hlo
  have h1 : e ≤ Int.log 2 x :=
    (Int.zpow_le_iff_le_log (b := 2) (by norm_num) hpos).mp (by exact_mod_cast hlo)
  have h2 : Int.log 2 x < e + 1 :=
    (Int.lt_zpow_iff_log_lt (b := 2) (by norm_num) hpos).mp (by exact_mod_cast hhi)
  omega

/-- The double nearest to 11/10, and the double the code computes for `11 / 10 * 100`. -/
theorem roundDouble_eleven_tenths :
    roundDouble (11 / 10) = 4953959590107546 / 2 ^ 52 ∧
    roundDouble (roundDouble (11 / 10) * 100) = 110 + 1 / 2 ^ 46 := by
  have hlog1 : Int.log 2 (11 / 10 : ℚ) = 0 := log_eq_of_bounds (by norm_num) (by norm_num)
  have h1 : roundDouble (11 / 10) = 4953959590107546 / 2 ^ 52 := by
    rw [roundDouble_of_pos (by norm_num), hlog1]
    have hr : roundHalfEven ((11 / 10 : ℚ) / 2 ^ ((0 : ℤ) - 52)) = 4953959590107546 :=
      roundHalfEven_eq_of_near (by norm_num) (by norm_num)
    rw [hr]
    norm_num
  refine ⟨h1, ?_⟩
  rw [h1]
  have hlog2 : Int.log 2 ((4953959590107546 / 2 ^ 52 : ℚ) * 100) = 6 :=
    log_eq_of_bounds (by norm_num) (by norm_num)
  rw [roundDouble_of_pos (by norm_num), hlog2]
  have hr : roundHalfEven (((4953959590107546 / 2 ^ 52 : ℚ) * 100) / 2 ^ ((6 : ℤ) - 52)) =
      7740561859543041 :=
    roundHalfEven_eq_of_near (by norm_num) (by norm_num)
  rw [hr]
  norm_num

/-! ## Utilization of a forecast day -/

/-- The percentage the code computes for demand 11 and capacity 10 is the double next above
110, which prints as `110.00000000000001`. -/
theorem utilizationPercent_elevenOverTen :
    ICUDashboard.ForecastTab.utilizationPercent elevenOverTen =
      JsNumber.finite (110 + 1 / 2 ^ 46) := by
  have h := roundDouble_eleven_tenths.2
  simp only [ICUDashboard.ForecastTab.utilizationPercent, elevenOverTen, jsDiv,
    JsNumber.times]
  norm_num
  norm_num at h
  exact h

/-- C25: for a forecast day whose counts are integers a double holds exactly (below 2^53),
with `available_capacity > 0` and `predicted_demand >= 0`, the utilization percentage is
the finite double that `predicted_demand / available_capacity * 100` rounds to; the day is
flagged as a shortage exactly when that percentage exceeds 100, rounding never moving it
across 100; and the bar width `Math.min(utilizationPercent, 100)` is a finite number
between 0 and 100. -/
theorem C25_shortage_iff_over_capacity (day : ForecastDay)
    (hc : day.available_capacity > 0) (hd : day.predicted_demand ≥ 0)
    (hcs : day.available_capacity < 2 ^ 53) (_hds : day.predicted_demand < 2 ^ 53) :
    ICUDashboard.ForecastTab.utilizationPercent day =
      JsNumber.finite (roundDouble
        (roundDouble ((day.predicted_demand : ℚ) / (day.available_capacity : ℚ)) * 100)) ∧
    (ICUDashboard.ForecastTab.isShortage day = true ↔
      ICUDashboard.ForecastTab.isOverCapacity day = true) ∧
    (ICUDashboard.ForecastTab.isShortage day = true ↔
      roundDouble
        (roundDouble ((day.predicted_demand : ℚ) / (day.available_capacity : ℚ)) * 100) > 100) ∧
    ∃ w : ℚ, ICUDashboard.ForecastTab.barWidth day = JsNumber.finite w ∧ 0 ≤ w ∧ w ≤ 100 := by
  have hne : day.available_capacity ≠ 0 := ne_of_gt hc
  have hcq : (0 : ℚ) < (day.available_capacity : ℚ) := by exact_mod_cast hc
  have hdq : (0 : ℚ) ≤ (day.predicted_demand : ℚ) := by exact_mod_cast hd
  have hcsq : (day.available_capacity : ℚ) < 2 ^ 53 := by exact_mod_cast hcs
  have hq : (0 : ℚ) ≤ (day.predicted_demand : ℚ) / (day.available_capacity : ℚ) :=
    div_nonneg hdq (le_of_lt hcq)
  have hu : ICUDashboard.ForecastTab.utilizationPercent day =
      JsNumber.finite (roundDouble
        (roundDouble ((day.predicted_demand : ℚ) / (day.available_capacity : ℚ)) * 100)) := by
    simp [ICUDashboard.ForecastTab.utilizationPercent, jsDiv, hne, JsNumber.times]
  have hr0 : 0 ≤ roundDouble ((day.predicted_demand : ℚ) / (day.available_capacity : ℚ)) :=
    roundDouble_nonneg hq
  have hy0 : 0 ≤
      roundDouble ((day.predicted_demand : ℚ) / (day.available_capacity : ℚ)) * 100 :=
    mul_nonneg hr0 (by norm_num)
  have hshort : ICUDashboard.ForecastTab.isShortage day = true ↔
      day.predicted_demand > day.available_capacity := by
    simp [ICUDashboard.ForecastTab.isShortage, ICUDashboard.ForecastTab.shortage]
  have hover : roundDouble
      (roundDouble ((day.predicted_demand : ℚ) / (day.available_capacity : ℚ)) * 100) > 100 ↔
      day.predicted_demand > day.available_capacity := by
    constructor
    · intro hgt
      by_contra hle
      have hdc : (day.predicted_demand : ℚ) ≤ (day.available_capacity : ℚ) := by
        exact_mod_cast not_lt.mp hle
      have hq1 : (day.predicted_demand : ℚ) / (day.available_capacity : ℚ) ≤ 1 :=
        (div_le_one hcq).mpr hdc
      have hr1 := roundDouble_le_one hq hq1
      have hy : roundDouble ((day.predicted_demand : ℚ) / (day.available_capacity : ℚ)) * 100
          ≤ 100 := by linarith
      have := roundDouble_le_hundred hy0 hy
      linarith
    · intro hgt
      have hdc : (day.available_capacity : ℚ) + 1 ≤ (day.predicted_demand : ℚ) := by
        exact_mod_cast Int.add_one_le_iff.mpr hgt
      have hinv : (1 : ℚ) / 2 ^ 53 < 1 / (day.available_capacity : ℚ) :=
        one_div_lt_one_div_of_lt hcq hcsq
      have hq1 : 1 + 1 / 2 ^ 53 <
          (day.predicted_demand : ℚ) / (day.available_capacity : ℚ) := by
        have hstep : 1 + 1 / (day.available_capacity : ℚ) ≤
            (day.predicted_demand : ℚ) / (day.available_capacity : ℚ) := by
          rw [le_div_iff₀ hcq]
          have : (1 + 1 / (day.available_capacity : ℚ)) * (day.available_capacity : ℚ) =
              (day.available_capacity : ℚ) + 1 := by
            field_simp
          rw [this]
          exact hdc
        linarith
      have hr1 := succ_one_le_roundDouble hq1
      apply hundred_lt_roundDouble
      linarith
  refine ⟨hu, ?_, hshort.trans hover.symm, ?_⟩
  · rw [hshort, ← hover]
    simp [ICUDashboard.ForecastTab.isOverCapacity, hu, JsNumber.gt]
  · refine ⟨min (roundDouble
      (roundDouble ((day.predicted_demand : ℚ) / (day.available_capacity : ℚ)) * 100)) 100,
      ?_, ?_, ?_⟩
    · simp [ICUDashboard.ForecastTab.barWidth, hu, JsNumber.minWith]
    · exact le_min (roundDouble_nonneg hy0) (by norm_num)
    · exact min_le_right _ _

/-- C25 (witness): scenario D of the spec, demand 12 against capacity 9: a shortage, a
utilization above 100 and a full bar. -/
theorem C25_shortage_iff_over_capacity_witness :
    scenarioD.available_capacity > 0 ∧ scenarioD.predicted_demand ≥ 0 ∧
    scenarioD.available_capacity < 2 ^ 53 ∧ scenarioD.predicted_demand < 2 ^ 53 ∧
    ICUDashboard.ForecastTab.isShortage scenarioD = true ∧
    ICUDashboard.ForecastTab.isOverCapacity scenarioD = true :=
  ⟨by decide, by decide, by decide, by decide, by decide,
    (C25_shortage_iff_over_capacity scenarioD (by decide) (by decide) (by decide)
      (by decide)).2.1.mp (by decide)⟩

end RecovAI
